import Mathlib

/-
Verification development for the exercise-form validation core of the
Fitness repository (push-up / chin-up / plank validators).

The embedding translates, over the real numbers:
  - the shared base class `ExerciseValidator` (getLandmark, isLandmarkReliable,
    calculateAngle, calculateFormScore, addToValidationHistory,
    hasEnoughTimePassed, reset);
  - the geometry utility class `FormChecker` (pointToLineDistance,
    areLandmarksAligned, calculateBodyAngle, calculatePoseStability);
  - the three concrete validators `PushUpValidator`, `ChinUpValidator`,
    `PlankValidator` as state-transition functions
    `validate : State -> PoseResult -> Int -> ExerciseValidation × State`,
    where the `Int` argument models the value read from the live clock
    (`Date.now()`) during the call.

JavaScript `NaN` produced by `acos` on a division by a zero magnitude is
modelled by `Option ℝ` (`none` = NaN); every comparison against a possibly-NaN
value uses the `oLT`/`oGT`/`oLE` helpers, which are false on `none`, matching
JavaScript comparison semantics for NaN.
-/

namespace Fitness

open scoped Classical

noncomputable section

/-! ## Data model (src/types/index.ts) -/

/-- Landmark3D: one estimated body-joint position; `visibility` is optional. -/
structure Landmark3D where
  x : ℝ
  y : ℝ
  z : ℝ
  visibility : Option ℝ

/-- PoseResult: one frame of landmarks with an overall confidence and a
frame-supplied timestamp in integer milliseconds.  (`worldLandmarks` is never
read by any validator and is omitted.) -/
structure PoseResult where
  landmarks : List Landmark3D
  confidence : ℝ
  timestamp : ℤ

/-- ExerciseValidation: the per-frame output record. -/
structure ExerciseValidation where
  isValid : Bool
  feedback : List String
  completedRep : Bool
  formScore : ℝ

/-! ## NaN-aware comparison helpers

In JavaScript every ordering comparison with NaN is false.  A possibly-NaN
real is an `Option ℝ`; `oLT a b` holds iff `a` is an actual number `< b`. -/

def oLT (a : Option ℝ) (b : ℝ) : Prop := ∃ x, a = some x ∧ x < b

def oGT (a : Option ℝ) (b : ℝ) : Prop := ∃ x, a = some x ∧ b < x

def oLE (a : Option ℝ) (b : ℝ) : Prop := ∃ x, a = some x ∧ x ≤ b

/-! ## Shared base capability (ExerciseValidator.ts, quoted in
src/src/services/README.md lines 442-591) -/

/-- getLandmark: index lookup with a bounds check, `undefined` = `none`. -/
def getLandmark (p : PoseResult) (i : ℕ) : Option Landmark3D :=
  p.landmarks.get? i

/-- isLandmarkReliable: landmark present, visibility present and `≥ 0.5`
(the default `minVisibility`; no caller passes another value). -/
def isLandmarkReliable (lm : Option Landmark3D) : Prop :=
  ∃ l, lm = some l ∧ ∃ v, l.visibility = some v ∧ (0.5 : ℝ) ≤ v

/-- calculateAngle: 2-D angle at vertex `b` between `b→a` and `b→c`, in
degrees.  `acos(dot/(|ba|*|bc|))` is computed WITHOUT clamping the cosine
(README lines 487-505); a zero-length vector makes the quotient NaN
(modelled `none`), and a quotient outside `[-1,1]` would also yield NaN. -/
def calculateAngle (a b c : Landmark3D) : Option ℝ :=
  let bax := a.x - b.x
  let bay := a.y - b.y
  let bcx := c.x - b.x
  let bcy := c.y - b.y
  let dotProduct := bax * bcx + bay * bcy
  let magnitudeBA := Real.sqrt (bax * bax + bay * bay)
  let magnitudeBC := Real.sqrt (bcx * bcx + bcy * bcy)
  if magnitudeBA * magnitudeBC = 0 then none
  else if dotProduct / (magnitudeBA * magnitudeBC) < -1 ∨
          1 < dotProduct / (magnitudeBA * magnitudeBC) then none
  else some (Real.arccos (dotProduct / (magnitudeBA * magnitudeBC)) * (180 / Real.pi))

/-- calculateFormScore: fraction of satisfied criteria, 0 on the empty list. -/
def calculateFormScore (criteria : List Bool) : ℝ :=
  if criteria = [] then 0
  else (criteria.count true : ℝ) / (criteria.length : ℝ)

/-- historySize: number of frames kept in the validation-history buffer. -/
def historySize : ℕ := 5

/-- smoothedThreshold: `Math.ceil(historySize * 0.6) = 3` true entries needed
for the smoothed validity to hold. -/
def smoothedThreshold : ℕ := 3

/-- addToValidationHistory: push the new pass/fail flag, evict the oldest
entry past `historySize`, and return (new buffer, smoothed validity). -/
def addToValidationHistory (hist : List Bool) (v : Bool) : List Bool × Bool :=
  let h1 := hist ++ [v]
  let h2 := if historySize < h1.length then h1.tail else h1
  (h2, decide (smoothedThreshold ≤ h2.count true))

/-- hasEnoughTimePassed: compares the live-clock reading `now` against the
stored `lastValidationTime`; on success the stored time advances to `now`.
Returns (gate passed, new lastValidationTime). -/
def hasEnoughTimePassed (lastValidationTime now minInterval : ℤ) : Bool × ℤ :=
  if minInterval ≤ now - lastValidationTime then (true, now)
  else (false, lastValidationTime)

/-! ## FormChecker utilities (FormChecker.ts) -/

/-- pointToLineDistance: distance from `point` to the segment
`lineStart–lineEnd` (2-D, projection scalar clamped to `[0,1]`). -/
def pointToLineDistance (point lineStart lineEnd : Landmark3D) : ℝ :=
  let A := point.x - lineStart.x
  let B := point.y - lineStart.y
  let C := lineEnd.x - lineStart.x
  let D := lineEnd.y - lineStart.y
  let dot := A * C + B * D
  let lenSq := C * C + D * D
  if lenSq = 0 then Real.sqrt (A * A + B * B)
  else
    let param := dot / lenSq
    let xx := if param < 0 then lineStart.x
              else if 1 < param then lineEnd.x
              else lineStart.x + param * C
    let yy := if param < 0 then lineStart.y
              else if 1 < param then lineEnd.y
              else lineStart.y + param * D
    Real.sqrt ((point.x - xx) * (point.x - xx) + (point.y - yy) * (point.y - yy))

/-- areLandmarksAligned: every interior landmark is within `threshold` of the
segment from the first to the last landmark. -/
def areLandmarksAligned : List Landmark3D → ℝ → Prop
  | [], _ => True
  | [_], _ => True
  | first :: rest, threshold =>
      ∀ p ∈ rest.dropLast,
        pointToLineDistance p first ((first :: rest).getLast (by simp)) ≤ threshold

/-- calculateBodyAngle: angle at the hip between hip→shoulder and hip→ankle in
degrees, with the cosine clamped to `[-1,1]`; a zero magnitude still yields
NaN (`none`) because `0/0` is NaN before the clamp. -/
def calculateBodyAngle (shoulder hip ankle : Landmark3D) : Option ℝ :=
  let sx := shoulder.x - hip.x
  let sy := shoulder.y - hip.y
  let ax := ankle.x - hip.x
  let ay := ankle.y - hip.y
  let dotProduct := sx * ax + sy * ay
  let shoulderMagnitude := Real.sqrt (sx ^ 2 + sy ^ 2)
  let ankleMagnitude := Real.sqrt (ax ^ 2 + ay ^ 2)
  if shoulderMagnitude * ankleMagnitude = 0 then none
  else some (Real.arccos (max (-1) (min 1 (dotProduct / (shoulderMagnitude * ankleMagnitude)))) *
              (180 / Real.pi))

/-- keyLandmarks: shoulders, elbows, wrists and hips, compared across
consecutive frames by `calculatePoseStability`. -/
def keyLandmarks : List ℕ := [11, 12, 13, 14, 15, 16, 23, 24]

/-- landmarkMovement: 2-D displacement of landmark `i` between two frames;
`none` when either frame lacks the landmark. -/
def landmarkMovement (prev curr : PoseResult) (i : ℕ) : Option ℝ :=
  match getLandmark prev i, getLandmark curr i with
  | some pl, some cl =>
      some (Real.sqrt ((cl.x - pl.x) ^ 2 + (cl.y - pl.y) ^ 2))
  | _, _ => none

/-- pairTotals: summed displacement and comparison count over the key
landmarks of one consecutive frame pair. -/
def pairTotals (prev curr : PoseResult) : ℝ × ℕ :=
  keyLandmarks.foldl
    (fun acc i =>
      match landmarkMovement prev curr i with
      | some m => (acc.1 + m, acc.2 + 1)
      | none => acc)
    (0, 0)

/-- stabTotals: total displacement and comparison count over all consecutive
frame pairs, in loop order. -/
def stabTotals : List PoseResult → ℝ × ℕ
  | a :: b :: rest =>
      ((pairTotals a b).1 + (stabTotals (b :: rest)).1,
       (pairTotals a b).2 + (stabTotals (b :: rest)).2)
  | _ => (0, 0)

/-- calculatePoseStability: 0 with fewer than two frames or no comparable
landmarks, else `min 1 (max 0 (1 - averageMovement * 10))`. -/
def calculatePoseStability (poseResults : List PoseResult) : ℝ :=
  if poseResults.length < 2 then 0
  else if (stabTotals poseResults).2 = 0 then 0
  else min 1 (max 0 (1 - ((stabTotals poseResults).1 / ((stabTotals poseResults).2 : ℝ)) * 10))

/-! ## Push-up validator (src/services/PushUpValidator.ts)

Mutable instance state (base-class fields plus the two phase flags). -/

/-- PushUpState: `repCount`, `lastValidationTime`, the validation-history
buffer, and the two phase flags of the push-up state machine. -/
structure PushUpState where
  repCount : ℕ
  lastValidationTime : ℤ
  validationHistory : List Bool
  isInDownPosition : Bool
  isInUpPosition : Bool

/-- pushUpInit: state of a freshly constructed `PushUpValidator`. -/
def pushUpInit : PushUpState :=
  { repCount := 0, lastValidationTime := 0, validationHistory := []
    isInDownPosition := false, isInUpPosition := false }

/-- pushUpReset: `reset()` reinitializes every field in place. -/
def pushUpReset (_s : PushUpState) : PushUpState := pushUpInit

/-- lmk: landmark extraction after the reliability guard; the TS code uses
the non-null assertion `landmark!` there, so the default is never read. -/
def lmk (p : PoseResult) (i : ℕ) : Landmark3D :=
  (getLandmark p i).getD ⟨0, 0, 0, none⟩

/-- leftArmAngle: shoulder(11)–elbow(13)–wrist(15) angle (same computation in
PushUpValidator and ChinUpValidator). -/
def leftArmAngle (p : PoseResult) : Option ℝ :=
  calculateAngle (lmk p 11) (lmk p 13) (lmk p 15)

/-- rightArmAngle: shoulder(12)–elbow(14)–wrist(16) angle. -/
def rightArmAngle (p : PoseResult) : Option ℝ :=
  calculateAngle (lmk p 12) (lmk p 14) (lmk p 16)

/-- avgArmAngle: mean of the two arm angles; NaN if either arm's angle is NaN. -/
def avgArmAngle (p : PoseResult) : Option ℝ :=
  match leftArmAngle p, rightArmAngle p with
  | some l, some r => some ((l + r) / 2)
  | _, _ => none

/-- checkBodyAlignment (push-up): vertical offset between shoulder center and
hip center, normalized by the 0.1 threshold, clamped to [0,1]. -/
def checkBodyAlignment (leftShoulder rightShoulder leftHip rightHip : Landmark3D) : ℝ :=
  min 1 (max 0 (1 - |((leftShoulder.y + rightShoulder.y) / 2 -
                      (leftHip.y + rightHip.y) / 2)| / 0.1))

/-- checkArmSymmetry: left/right angle difference with a 30° linear falloff,
clamped to [0,1]. -/
def checkArmSymmetry (leftArmAngleV rightArmAngleV : ℝ) : ℝ :=
  min 1 (max 0 (1 - |leftArmAngleV - rightArmAngleV| / 30))

/-- pushUpBodyAlignmentScore: alignment score of the current frame. -/
def pushUpBodyAlignmentScore (p : PoseResult) : ℝ :=
  checkBodyAlignment (lmk p 11) (lmk p 12) (lmk p 23) (lmk p 24)

/-- pushUpArmSymmetryScore: symmetry score, NaN if an arm angle is NaN. -/
def pushUpArmSymmetryScore (p : PoseResult) : Option ℝ :=
  match leftArmAngle p, rightArmAngle p with
  | some l, some r => some (checkArmSymmetry l r)
  | _, _ => none

/-- pushUpFormCriteria: alignment > 0.7, symmetry > 0.7, angle in (30,180). -/
def pushUpFormCriteria (p : PoseResult) : List Bool :=
  [decide (0.7 < pushUpBodyAlignmentScore p),
   decide (oGT (pushUpArmSymmetryScore p) 0.7),
   decide (oGT (avgArmAngle p) 30 ∧ oLT (avgArmAngle p) 180)]

/-- pushUpFormScore: weighted-average form score of the current frame. -/
def pushUpFormScore (p : PoseResult) : ℝ :=
  calculateFormScore (pushUpFormCriteria p)

/-- pushUpFrameValid: the per-frame `isValid` flag (before smoothing). -/
def pushUpFrameValid (p : PoseResult) : Prop :=
  0.6 < pushUpFormScore p

/-- pushUpIsCurrentlyDown: `avgArmAngle < minArmAngle (70)`. -/
def pushUpIsCurrentlyDown (p : PoseResult) : Prop := oLT (avgArmAngle p) 70

/-- pushUpIsCurrentlyUp: `avgArmAngle > maxArmAngle (160)`. -/
def pushUpIsCurrentlyUp (p : PoseResult) : Prop := oGT (avgArmAngle p) 160

/-- pushUpRequiredIdx: shoulders, elbows, wrists, hips. -/
def pushUpRequiredIdx : List ℕ := [11, 12, 13, 14, 15, 16, 23, 24]

/-- pushUpLandmarksReliable: `requiredLandmarks.every(isLandmarkReliable)`. -/
def pushUpLandmarksReliable (p : PoseResult) : Prop :=
  ∀ i ∈ pushUpRequiredIdx, isLandmarkReliable (getLandmark p i)

/-- pushUpStateStep: the repetition-counting state machine
(PushUpValidator.ts lines 110-129); returns (new state, completedRep,
state-machine feedback). -/
def pushUpStateStep (s : PushUpState) (p : PoseResult) (now : ℤ) :
    PushUpState × Bool × List String :=
  if pushUpIsCurrentlyDown p ∧ s.isInDownPosition = false ∧ pushUpFrameValid p then
    ({ s with isInDownPosition := true, isInUpPosition := false },
     false, ["Good down position!"])
  else if pushUpIsCurrentlyUp p ∧ s.isInDownPosition = true ∧
          s.isInUpPosition = false ∧ pushUpFrameValid p then
    if (hasEnoughTimePassed s.lastValidationTime now 1000).1 = true then
      ({ s with repCount := s.repCount + 1,
                isInDownPosition := false, isInUpPosition := false,
                lastValidationTime := (hasEnoughTimePassed s.lastValidationTime now 1000).2 },
       true, ["Great push-up! Count: " ++ toString (s.repCount + 1)])
    else
      ({ s with isInUpPosition := true }, false, [])
  else (s, false, [])

/-- pushUpCriterionFeedback: per-failing-criterion feedback lines. -/
def pushUpCriterionFeedback (p : PoseResult) : List String :=
  (if pushUpBodyAlignmentScore p ≤ 0.7
   then ["Keep your body straight - align shoulders with hips"] else []) ++
  (if oLE (pushUpArmSymmetryScore p) 0.7
   then ["Keep both arms moving symmetrically"] else [])

/-- pushUpGuidance: current-phase guidance emitted only on valid frames. -/
def pushUpGuidance (p : PoseResult) : List String :=
  if pushUpFrameValid p then
    if oGT (avgArmAngle p) 160 then ["Lower yourself down"]
    else if oLT (avgArmAngle p) 70 then ["Push back up"]
    else ["Good form - keep going!"]
  else []

/-- confidenceFeedback: sentinel feedback for a low-confidence frame. -/
def confidenceFeedback : String := "Please position yourself clearly in the camera view"

/-- upperBodyFeedback: sentinel feedback for unreliable upper-body landmarks. -/
def upperBodyFeedback : String := "Please ensure your upper body is fully visible"

/-- pushUpValidate: `PushUpValidator.validate(poseResult)`; `now` is the value
the call reads from `Date.now()`. -/
def pushUpValidate (s : PushUpState) (p : PoseResult) (now : ℤ) :
    ExerciseValidation × PushUpState :=
  if p.confidence < 0.6 then
    ({ isValid := false, feedback := [confidenceFeedback],
       completedRep := false, formScore := 0 }, s)
  else if ¬ pushUpLandmarksReliable p then
    ({ isValid := false, feedback := [upperBodyFeedback],
       completedRep := false, formScore := 0 }, s)
  else
    ({ isValid := (addToValidationHistory (pushUpStateStep s p now).1.validationHistory
                    (decide (pushUpFrameValid p))).2,
       feedback := pushUpCriterionFeedback p ++ (pushUpStateStep s p now).2.2 ++
                   pushUpGuidance p,
       completedRep := (pushUpStateStep s p now).2.1,
       formScore := pushUpFormScore p },
     { (pushUpStateStep s p now).1 with
        validationHistory := (addToValidationHistory
          (pushUpStateStep s p now).1.validationHistory
          (decide (pushUpFrameValid p))).1 })

/-- pushUpRun: fold `validate` over a list of (frame, clock reading) inputs. -/
def pushUpRun (s : PushUpState) (inputs : List (PoseResult × ℤ)) : PushUpState :=
  inputs.foldl (fun st pr => (pushUpValidate st pr.1 pr.2).2) s

/-! ## Chin-up validator (ChinUpValidator.ts) -/

/-- ChinUpState: same field layout as the push-up validator. -/
structure ChinUpState where
  repCount : ℕ
  lastValidationTime : ℤ
  validationHistory : List Bool
  isInDownPosition : Bool
  isInUpPosition : Bool

/-- chinUpInit: state of a freshly constructed `ChinUpValidator`. -/
def chinUpInit : ChinUpState :=
  { repCount := 0, lastValidationTime := 0, validationHistory := []
    isInDownPosition := false, isInUpPosition := false }

/-- chinUpReset: `reset()` reinitializes every field in place. -/
def chinUpReset (_s : ChinUpState) : ChinUpState := chinUpInit

/-- checkBodyPosition (chin-up): horizontal drift between shoulder center and
hip center (anti-swing), normalized by 0.1, clamped to [0,1]. -/
def checkBodyPosition (leftShoulder rightShoulder leftHip rightHip : Landmark3D) : ℝ :=
  min 1 (max 0 (1 - |((leftShoulder.x + rightShoulder.x) / 2 -
                      (leftHip.x + rightHip.x) / 2)| / 0.1))

/-- checkChinOverBar: 0 when the nose is not above the wrist midline (smaller
`y` = higher); otherwise clearance / 0.05 capped at 1. -/
def checkChinOverBar (nose leftWrist rightWrist : Landmark3D) : ℝ :=
  if nose.y < (leftWrist.y + rightWrist.y) / 2 then
    min 1 (((leftWrist.y + rightWrist.y) / 2 - nose.y) / 0.05)
  else 0

/-- chinUpBodyPositionScore: anti-swing score of the current frame. -/
def chinUpBodyPositionScore (p : PoseResult) : ℝ :=
  checkBodyPosition (lmk p 11) (lmk p 12) (lmk p 23) (lmk p 24)

/-- chinUpChinOverBarScore: nose(0) versus wrists(15,16). -/
def chinUpChinOverBarScore (p : PoseResult) : ℝ :=
  checkChinOverBar (lmk p 0) (lmk p 15) (lmk p 16)

/-- chinUpFormCriteria: body position > 0.7, symmetry > 0.7, angle in (30,180). -/
def chinUpFormCriteria (p : PoseResult) : List Bool :=
  [decide (0.7 < chinUpBodyPositionScore p),
   decide (oGT (pushUpArmSymmetryScore p) 0.7),
   decide (oGT (avgArmAngle p) 30 ∧ oLT (avgArmAngle p) 180)]

/-- chinUpFormScore: weighted-average form score of the current frame. -/
def chinUpFormScore (p : PoseResult) : ℝ :=
  calculateFormScore (chinUpFormCriteria p)

/-- chinUpFrameValid: the per-frame `isValid` flag (before smoothing). -/
def chinUpFrameValid (p : PoseResult) : Prop :=
  0.6 < chinUpFormScore p

/-- chinUpIsCurrentlyDown: arms extended, `avgArmAngle > minArmAngle (130)`. -/
def chinUpIsCurrentlyDown (p : PoseResult) : Prop := oGT (avgArmAngle p) 130

/-- chinUpIsCurrentlyUp: arms bent and chin over the bar. -/
def chinUpIsCurrentlyUp (p : PoseResult) : Prop :=
  oLT (avgArmAngle p) 70 ∧ 0.7 < chinUpChinOverBarScore p

/-- chinUpRequiredIdx: nose, shoulders, elbows, wrists, hips. -/
def chinUpRequiredIdx : List ℕ := [0, 11, 12, 13, 14, 15, 16, 23, 24]

/-- chinUpLandmarksReliable: `requiredLandmarks.every(isLandmarkReliable)`. -/
def chinUpLandmarksReliable (p : PoseResult) : Prop :=
  ∀ i ∈ chinUpRequiredIdx, isLandmarkReliable (getLandmark p i)

/-- chinUpStateStep: the three-branch chin-up state machine
(ChinUpValidator.ts lines 120-136). -/
def chinUpStateStep (s : ChinUpState) (p : PoseResult) (now : ℤ) :
    ChinUpState × Bool × List String :=
  if chinUpIsCurrentlyDown p ∧ s.isInDownPosition = false ∧ s.isInUpPosition = false then
    ({ s with isInDownPosition := true }, false, ["Good starting position!"])
  else if chinUpIsCurrentlyUp p ∧ s.isInDownPosition = true ∧
          s.isInUpPosition = false ∧ chinUpFrameValid p then
    ({ s with isInUpPosition := true }, false, ["Great! Chin over the bar!"])
  else if chinUpIsCurrentlyDown p ∧ s.isInDownPosition = true ∧
          s.isInUpPosition = true ∧ chinUpFrameValid p then
    if (hasEnoughTimePassed s.lastValidationTime now 1000).1 = true then
      ({ s with repCount := s.repCount + 1,
                isInDownPosition := true, isInUpPosition := false,
                lastValidationTime := (hasEnoughTimePassed s.lastValidationTime now 1000).2 },
       true, ["Great chin-up! Count: " ++ toString (s.repCount + 1)])
    else (s, false, [])
  else (s, false, [])

/-- chinUpCriterionFeedback: per-failing-criterion feedback lines. -/
def chinUpCriterionFeedback (p : PoseResult) : List String :=
  (if chinUpBodyPositionScore p ≤ 0.7
   then ["Keep your body straight - avoid swinging"] else []) ++
  (if oLE (pushUpArmSymmetryScore p) 0.7
   then ["Keep both arms moving symmetrically"] else [])

/-- chinUpGuidance: current-phase guidance emitted only on valid frames. -/
def chinUpGuidance (p : PoseResult) : List String :=
  if chinUpFrameValid p then
    if oGT (avgArmAngle p) 130 then ["Pull yourself up"]
    else if oLT (avgArmAngle p) 70 then ["Lower yourself down"]
    else ["Good form - keep going!"]
  else []

/-- chinUpValidate: `ChinUpValidator.validate(poseResult)`. -/
def chinUpValidate (s : ChinUpState) (p : PoseResult) (now : ℤ) :
    ExerciseValidation × ChinUpState :=
  if p.confidence < 0.6 then
    ({ isValid := false, feedback := [confidenceFeedback],
       completedRep := false, formScore := 0 }, s)
  else if ¬ chinUpLandmarksReliable p then
    ({ isValid := false, feedback := [upperBodyFeedback],
       completedRep := false, formScore := 0 }, s)
  else
    ({ isValid := (addToValidationHistory (chinUpStateStep s p now).1.validationHistory
                    (decide (chinUpFrameValid p))).2,
       feedback := chinUpCriterionFeedback p ++ (chinUpStateStep s p now).2.2 ++
                   chinUpGuidance p,
       completedRep := (chinUpStateStep s p now).2.1,
       formScore := chinUpFormScore p },
     { (chinUpStateStep s p now).1 with
        validationHistory := (addToValidationHistory
          (chinUpStateStep s p now).1.validationHistory
          (decide (chinUpFrameValid p))).1 })

/-- chinUpRun: fold `validate` over a list of (frame, clock reading) inputs. -/
def chinUpRun (s : ChinUpState) (inputs : List (PoseResult × ℤ)) : ChinUpState :=
  inputs.foldl (fun st pr => (chinUpValidate st pr.1 pr.2).2) s

/-! ## Plank validator (src/services/PlankValidator.ts) -/

/-- PlankState: base-class fields plus the plank's duration tracking state. -/
structure PlankState where
  repCount : ℕ
  lastValidationTime : ℤ
  validationHistory : List Bool
  plankStartTime : ℤ
  plankDuration : ℤ
  isInPlankPosition : Bool
  lastStableTime : ℤ
  recentPoses : List PoseResult
  nextMilestoneIndex : ℕ

/-- plankInit: state of a freshly constructed `PlankValidator`. -/
def plankInit : PlankState :=
  { repCount := 0, lastValidationTime := 0, validationHistory := []
    plankStartTime := 0, plankDuration := 0, isInPlankPosition := false
    lastStableTime := 0, recentPoses := [], nextMilestoneIndex := 0 }

/-- plankReset: `reset()` reinitializes every field in place. -/
def plankReset (_s : PlankState) : PlankState := plankInit

/-- milestoneDurations: the fixed ascending milestone table, in ms. -/
def milestoneDurations : List ℤ := [5000, 10000, 20000, 30000, 60000]

/-- maxRecentPoses: capacity of the recent-pose buffer. -/
def maxRecentPoses : ℕ := 10

/-- addToRecentPoses: push the frame, evicting the oldest past capacity. -/
def addToRecentPoses (recent : List PoseResult) (p : PoseResult) : List PoseResult :=
  if maxRecentPoses < (recent ++ [p]).length then (recent ++ [p]).tail
  else recent ++ [p]

/-- plankAfterPose: `validate` first records the frame into `recentPoses`. -/
def plankAfterPose (s : PlankState) (p : PoseResult) : PlankState :=
  { s with recentPoses := addToRecentPoses s.recentPoses p }

/-- handleInvalidPose: clear `isInPlankPosition` only after more than 1000 ms
since the last stable frame; duration and milestone progress are kept. -/
def handleInvalidPose (s : PlankState) (now : ℤ) : PlankState :=
  if s.isInPlankPosition = true ∧ 1000 < now - s.lastStableTime then
    { s with isInPlankPosition := false }
  else s

/-- centerLm: midpoint of two landmarks (the TS code builds a plain
`{x,y,z}` object, so the model carries no visibility). -/
def centerLm (a b : Landmark3D) : Landmark3D :=
  ⟨(a.x + b.x) / 2, (a.y + b.y) / 2, (a.z + b.z) / 2, none⟩

/-- plankCheckBodyAlignment: 1.0 when shoulder/hip/ankle centers are aligned
within 0.1; otherwise scored from the body angle normalized by 30°.  NaN
(`none`) when the body-angle computation degenerates. -/
def plankCheckBodyAlignment
    (leftShoulder rightShoulder leftHip rightHip leftAnkle rightAnkle : Landmark3D) :
    Option ℝ :=
  if areLandmarksAligned
      [centerLm leftShoulder rightShoulder, centerLm leftHip rightHip,
       centerLm leftAnkle rightAnkle] 0.1 then some 1
  else
    (calculateBodyAngle (centerLm leftShoulder rightShoulder)
        (centerLm leftHip rightHip) (centerLm leftAnkle rightAnkle)).map
      (fun d => max 0 (1 - min (d / 30) 1))

/-- plankCheckElbowPosition: mean of the two elbow-under-shoulder horizontal
offset scores (wrist parameters are accepted but unused, as in the source). -/
def plankCheckElbowPosition
    (leftShoulder leftElbow _leftWrist rightShoulder rightElbow _rightWrist : Landmark3D) : ℝ :=
  (max 0 (1 - |leftElbow.x - leftShoulder.x| / 0.1) +
   max 0 (1 - |rightElbow.x - rightShoulder.x| / 0.1)) / 2

/-- plankCheckHipPosition: deviation of the hip-vertex angle from 180°,
normalized by 30°; cosine clamped, NaN (`none`) on a zero magnitude. -/
def plankCheckHipPosition
    (leftShoulder rightShoulder leftHip rightHip leftAnkle rightAnkle : Landmark3D) :
    Option ℝ :=
  let sc := centerLm leftShoulder rightShoulder
  let hc := centerLm leftHip rightHip
  let ac := centerLm leftAnkle rightAnkle
  let shx := sc.x - hc.x
  let shy := sc.y - hc.y
  let ahx := ac.x - hc.x
  let ahy := ac.y - hc.y
  let dotProduct := shx * ahx + shy * ahy
  let shMag := Real.sqrt (shx ^ 2 + shy ^ 2)
  let ahMag := Real.sqrt (ahx ^ 2 + ahy ^ 2)
  if shMag * ahMag = 0 then none
  else
    some (max 0 (1 -
      |180 - Real.arccos (max (-1) (min 1 (dotProduct / (shMag * ahMag)))) *
        (180 / Real.pi)| / 30))

/-- plankAlignScore: alignment score of the current frame. -/
def plankAlignScore (p : PoseResult) : Option ℝ :=
  plankCheckBodyAlignment (lmk p 11) (lmk p 12) (lmk p 23) (lmk p 24) (lmk p 27) (lmk p 28)

/-- plankElbowScore: elbow-position score of the current frame. -/
def plankElbowScore (p : PoseResult) : ℝ :=
  plankCheckElbowPosition (lmk p 11) (lmk p 13) (lmk p 15) (lmk p 12) (lmk p 14) (lmk p 16)

/-- plankHipScore: hip-position score of the current frame. -/
def plankHipScore (p : PoseResult) : Option ℝ :=
  plankCheckHipPosition (lmk p 11) (lmk p 12) (lmk p 23) (lmk p 24) (lmk p 27) (lmk p 28)

/-- plankFormCriteria: the four form criteria of PlankValidator.ts lines
124-129 — alignment > 0.7, elbow > 0.7, hip > 0.7, stability > 0.7 — over the
already-updated recent-pose buffer. -/
def plankFormCriteria (recent : List PoseResult) (p : PoseResult) : List Bool :=
  [decide (oGT (plankAlignScore p) 0.7),
   decide (0.7 < plankElbowScore p),
   decide (oGT (plankHipScore p) 0.7),
   decide (0.7 < calculatePoseStability recent)]

/-- plankFormScore: weighted-average form score (fraction of the 4 criteria). -/
def plankFormScore (recent : List PoseResult) (p : PoseResult) : ℝ :=
  calculateFormScore (plankFormCriteria recent p)

/-- plankFrameValid: the per-frame `isValid` flag, `formScore > 0.6`
(PlankValidator.ts line 132). -/
def plankFrameValid (recent : List PoseResult) (p : PoseResult) : Prop :=
  0.6 < plankFormScore recent p

/-- plankRequiredIdx: shoulders, elbows, wrists, hips, knees, ankles. -/
def plankRequiredIdx : List ℕ := [11, 12, 13, 14, 15, 16, 23, 24, 25, 26, 27, 28]

/-- plankLandmarksReliable: `requiredLandmarks.every(isLandmarkReliable)`. -/
def plankLandmarksReliable (p : PoseResult) : Prop :=
  ∀ i ∈ plankRequiredIdx, isLandmarkReliable (getLandmark p i)

/-- plankStateStep: the plank duration/milestone state machine
(PlankValidator.ts lines 151-186), applied to the state whose recent-pose
buffer already contains the current frame. -/
def plankStateStep (s0 : PlankState) (p : PoseResult) (now : ℤ) :
    PlankState × Bool × List String :=
  if plankFrameValid s0.recentPoses p then
    if s0.isInPlankPosition = false then
      ({ s0 with isInPlankPosition := true, plankStartTime := now },
       false, ["Good plank position! Hold steady..."])
    else
      if s0.nextMilestoneIndex < milestoneDurations.length ∧
         milestoneDurations.getD s0.nextMilestoneIndex 0 ≤ now - s0.plankStartTime then
        ({ s0 with plankDuration := now - s0.plankStartTime, lastStableTime := now,
                   repCount := s0.repCount + 1,
                   nextMilestoneIndex := s0.nextMilestoneIndex + 1 },
         true,
         ["Great form! Duration: " ++ toString ((now - s0.plankStartTime) / 1000) ++ " seconds",
          "Milestone reached: " ++
            toString (milestoneDurations.getD s0.nextMilestoneIndex 0 / 1000) ++ " seconds!"])
      else
        ({ s0 with plankDuration := now - s0.plankStartTime, lastStableTime := now },
         false,
         ["Great form! Duration: " ++ toString ((now - s0.plankStartTime) / 1000) ++ " seconds"])
  else
    if s0.isInPlankPosition = true ∧ 1000 < now - s0.lastStableTime then
      (handleInvalidPose s0 now, false, ["Plank position lost. Reset and try again."])
    else (s0, false, [])

/-- plankCriterionFeedback: per-failing-criterion feedback lines (NaN scores
produce no line, as in JavaScript). -/
def plankCriterionFeedback (recent : List PoseResult) (p : PoseResult) : List String :=
  (if oLE (plankAlignScore p) 0.7
   then ["Keep your body in a straight line from head to heels"] else []) ++
  (if plankElbowScore p ≤ 0.7
   then ["Position your elbows directly under your shoulders"] else []) ++
  (if oLE (plankHipScore p) 0.7
   then ["Keep your hips level - don\x27t sag or pike"] else []) ++
  (if calculatePoseStability recent ≤ 0.7
   then ["Try to hold still with minimal movement"] else [])

/-- fullBodyFeedback: sentinel feedback for unreliable full-body landmarks. -/
def fullBodyFeedback : String := "Please ensure your full body is visible"

/-- plankValidate: `PlankValidator.validate(poseResult)`; the frame is pushed
into `recentPoses` before any guard, and both early-return paths run
`handleInvalidPose`. -/
def plankValidate (s : PlankState) (p : PoseResult) (now : ℤ) :
    ExerciseValidation × PlankState :=
  if p.confidence < 0.6 then
    ({ isValid := false, feedback := [confidenceFeedback],
       completedRep := false, formScore := 0 },
     handleInvalidPose (plankAfterPose s p) now)
  else if ¬ plankLandmarksReliable p then
    ({ isValid := false, feedback := [fullBodyFeedback],
       completedRep := false, formScore := 0 },
     handleInvalidPose (plankAfterPose s p) now)
  else
    ({ isValid := (addToValidationHistory
          (plankStateStep (plankAfterPose s p) p now).1.validationHistory
          (decide (plankFrameValid (plankAfterPose s p).recentPoses p))).2,
       feedback := plankCriterionFeedback (plankAfterPose s p).recentPoses p ++
                   (plankStateStep (plankAfterPose s p) p now).2.2,
       completedRep := (plankStateStep (plankAfterPose s p) p now).2.1,
       formScore := plankFormScore (plankAfterPose s p).recentPoses p },
     { (plankStateStep (plankAfterPose s p) p now).1 with
        validationHistory := (addToValidationHistory
          (plankStateStep (plankAfterPose s p) p now).1.validationHistory
          (decide (plankFrameValid (plankAfterPose s p).recentPoses p))).1 })

/-- plankRun: fold `validate` over a list of (frame, clock reading) inputs. -/
def plankRun (s : PlankState) (inputs : List (PoseResult × ℤ)) : PlankState :=
  inputs.foldl (fun st pr => (plankValidate st pr.1 pr.2).2) s

/-- sameLandmarks: two frames carrying identical landmark lists (they may
differ in confidence or timestamp). -/
def sameLandmarks (a b : PoseResult) : Prop := a.landmarks = b.landmarks

/-- PlankFieldsEq: two plank states agreeing on every field except possibly
the recent-pose buffer. -/
def PlankFieldsEq (a b : PlankState) : Prop :=
  a.repCount = b.repCount ∧ a.lastValidationTime = b.lastValidationTime ∧
  a.validationHistory = b.validationHistory ∧ a.plankStartTime = b.plankStartTime ∧
  a.plankDuration = b.plankDuration ∧ a.isInPlankPosition = b.isInPlankPosition ∧
  a.lastStableTime = b.lastStableTime ∧ a.nextMilestoneIndex = b.nextMilestoneIndex

/-- pushUpStuck: both phase flags set at once — the configuration produced by
a Down→Up transition whose time gate failed. -/
def pushUpStuck (s : PushUpState) : Prop :=
  s.isInDownPosition = true ∧ s.isInUpPosition = true

/-! ## Concrete test inputs -/

/-- mkLm: a fully visible landmark at `(x, y, 0)`. -/
def mkLm (x y : ℝ) : Landmark3D := ⟨x, y, 0, some 0.9⟩

/-- puLandmark: push-up frame geometry parameterized by the elbow angle `t`
in radians: each elbow at the origin of its arm, shoulder one unit along the
x-axis, wrist on the unit circle at angle `t`, shoulders and hips at equal
height (exact alignment). -/
def puLandmark (t : ℝ) (i : ℕ) : Landmark3D :=
  if i = 11 then mkLm 1 0
  else if i = 12 then mkLm 11 0
  else if i = 13 then mkLm 0 0
  else if i = 14 then mkLm 10 0
  else if i = 15 then ⟨Real.cos t, Real.sin t, 0, some 0.9⟩
  else if i = 16 then ⟨10 + Real.cos t, Real.sin t, 0, some 0.9⟩
  else if i = 23 then mkLm 0 0
  else if i = 24 then mkLm 2 0
  else mkLm 0 0

/-- puFrame: a high-confidence push-up frame with both arm angles equal to
`t` radians (`t * 180 / π` degrees). -/
def puFrame (t : ℝ) : PoseResult :=
  ⟨(List.range 25).map (puLandmark t), 0.9, 0⟩

/-- plankGoodLm: an exactly straight, still plank: shoulder, hip and ankle
centers collinear on `y = 0.5`, elbows directly under the shoulders. -/
def plankGoodLm (i : ℕ) : Landmark3D :=
  if i = 11 then mkLm 0 0.5
  else if i = 12 then mkLm 0.2 0.5
  else if i = 13 then mkLm 0 0.7
  else if i = 14 then mkLm 0.2 0.7
  else if i = 15 then mkLm 0 0.8
  else if i = 16 then mkLm 0.2 0.8
  else if i = 23 then mkLm 0.4 0.5
  else if i = 24 then mkLm 0.6 0.5
  else if i = 25 then mkLm 0.65 0.5
  else if i = 26 then mkLm 0.7 0.5
  else if i = 27 then mkLm 0.8 0.5
  else if i = 28 then mkLm 1 0.5
  else mkLm 0 0

/-- plankGoodFrame: a high-confidence frame with perfect plank geometry. -/
def plankGoodFrame : PoseResult :=
  ⟨(List.range 29).map plankGoodLm, 0.9, 0⟩

/-- plankBadLm: a strongly sagging plank (hips 0.4 below the shoulder/ankle
line): alignment and hip criteria fail, elbow criterion passes. -/
def plankBadLm (i : ℕ) : Landmark3D :=
  if i = 11 then mkLm 0 0.5
  else if i = 12 then mkLm 0.2 0.5
  else if i = 13 then mkLm 0 0.7
  else if i = 14 then mkLm 0.2 0.7
  else if i = 15 then mkLm 0 0.8
  else if i = 16 then mkLm 0.2 0.8
  else if i = 23 then mkLm 0.4 0.9
  else if i = 24 then mkLm 0.6 0.9
  else if i = 25 then mkLm 0.65 0.7
  else if i = 26 then mkLm 0.7 0.7
  else if i = 27 then mkLm 0.8 0.5
  else if i = 28 then mkLm 1 0.5
  else mkLm 0 0

/-- plankBadFrame: a high-confidence frame with sagging plank geometry. -/
def plankBadFrame : PoseResult :=
  ⟨(List.range 29).map plankBadLm, 0.9, 0⟩

/-- lowConfFrame: a frame whose overall confidence fails the 0.6 guard. -/
def lowConfFrame : PoseResult := ⟨[], 0.5, 0⟩

/-- sDownPU: push-up validator that has entered the Down phase. -/
def sDownPU : PushUpState := { pushUpInit with isInDownPosition := true }

/-- sStuckPU: push-up validator with both phase flags set. -/
def sStuckPU : PushUpState :=
  { pushUpInit with isInDownPosition := true, isInUpPosition := true }

/-- plankHold: plank validator currently in position with
`lastStableTime = 0` and 3000 ms of accumulated duration. -/
def plankHold : PlankState :=
  { plankInit with isInPlankPosition := true, plankDuration := 3000 }

end

/-! ## Helper lemmas: NaN-aware comparisons and landmark lookup -/

@[simp] theorem oLT_some {x b : ℝ} : oLT (some x) b ↔ x < b := by
  simp [oLT]

@[simp] theorem oGT_some {x b : ℝ} : oGT (some x) b ↔ b < x := by
  simp [oGT]

@[simp] theorem oLE_some {x b : ℝ} : oLE (some x) b ↔ x ≤ b := by
  simp [oLE]

@[simp] theorem oLT_none {b : ℝ} : ¬ oLT none b := by simp [oLT]

@[simp] theorem oGT_none {b : ℝ} : ¬ oGT none b := by simp [oGT]

@[simp] theorem oLE_none {b : ℝ} : ¬ oLE none b := by simp [oLE]

theorem getLandmark_mapRange {f : ℕ → Landmark3D} {c : ℝ} {ts : ℤ} {n i : ℕ}
    (h : i < n) :
    getLandmark ⟨(List.range n).map f, c, ts⟩ i = some (f i) := by
  simp [getLandmark, List.getElem?_map, List.getElem?_range, h]

theorem lmk_mapRange {f : ℕ → Landmark3D} {c : ℝ} {ts : ℤ} {n i : ℕ}
    (h : i < n) :
    lmk ⟨(List.range n).map f, c, ts⟩ i = f i := by
  simp [lmk, getLandmark_mapRange h]

theorem reliable_of_vis {lm : Landmark3D} (h : lm.visibility = some 0.9) :
    isLandmarkReliable (some lm) :=
  ⟨lm, rfl, 0.9, h, by norm_num⟩

theorem puFrame_reliable (t : ℝ) : pushUpLandmarksReliable (puFrame t) := by
  intro i hi
  fin_cases hi <;>
    · rw [puFrame, getLandmark_mapRange (by norm_num)]
      exact reliable_of_vis (by norm_num [puLandmark, mkLm])

theorem plankGoodFrame_reliable : plankLandmarksReliable plankGoodFrame := by
  intro i hi
  fin_cases hi <;>
    · rw [plankGoodFrame, getLandmark_mapRange (by norm_num)]
      exact reliable_of_vis (by norm_num [plankGoodLm, mkLm])

theorem plankBadFrame_reliable : plankLandmarksReliable plankBadFrame := by
  intro i hi
  fin_cases hi <;>
    · rw [plankBadFrame, getLandmark_mapRange (by norm_num)]
      exact reliable_of_vis (by norm_num [plankBadLm, mkLm])

/-! ## Arm angles of the parametric push-up frame -/

theorem calculateAngle_unit (bx byc : ℝ) (va vb vc : Option ℝ) {t : ℝ}
    (h0 : 0 ≤ t) (h1 : t ≤ Real.pi) :
    calculateAngle ⟨bx + 1, byc, 0, va⟩ ⟨bx, byc, 0, vb⟩
      ⟨bx + Real.cos t, byc + Real.sin t, 0, vc⟩ = some (t * (180 / Real.pi)) := by
  simp only [calculateAngle]
  have e1 : (bx + 1 - bx) * (bx + 1 - bx) + (byc - byc) * (byc - byc) = 1 := by ring
  have e2 : (bx + Real.cos t - bx) * (bx + Real.cos t - bx) +
      (byc + Real.sin t - byc) * (byc + Real.sin t - byc) = 1 := by
    nlinarith [Real.sin_sq_add_cos_sq t]
  have e3 : (bx + 1 - bx) * (bx + Real.cos t - bx) +
      (byc - byc) * (byc + Real.sin t - byc) = Real.cos t := by ring
  rw [e1, e2, e3, Real.sqrt_one, one_mul, div_one]
  rw [if_neg (by norm_num)]
  rw [if_neg ?hq]
  case hq =>
    rintro (h | h)
    · exact absurd h (not_lt.mpr (Real.neg_one_le_cos t))
    · exact absurd h (not_lt.mpr (Real.cos_le_one t))
  rw [Real.arccos_cos h0 h1]

theorem leftArmAngle_puFrame {t : ℝ} (h0 : 0 ≤ t) (h1 : t ≤ Real.pi) :
    leftArmAngle (puFrame t) = some (t * (180 / Real.pi)) := by
  rw [leftArmAngle, puFrame, lmk_mapRange (by norm_num), lmk_mapRange (by norm_num),
      lmk_mapRange (by norm_num)]
  have := calculateAngle_unit 0 0 (some 0.9) (some 0.9) (some 0.9) h0 h1
  norm_num [puLandmark, mkLm] at this ⊢
  exact this

theorem rightArmAngle_puFrame {t : ℝ} (h0 : 0 ≤ t) (h1 : t ≤ Real.pi) :
    rightArmAngle (puFrame t) = some (t * (180 / Real.pi)) := by
  rw [rightArmAngle, puFrame, lmk_mapRange (by norm_num), lmk_mapRange (by norm_num),
      lmk_mapRange (by norm_num)]
  have := calculateAngle_unit 10 0 (some 0.9) (some 0.9) (some 0.9) h0 h1
  norm_num [puLandmark, mkLm] at this ⊢
  exact this

theorem avgArmAngle_puFrame {t : ℝ} (h0 : 0 ≤ t) (h1 : t ≤ Real.pi) :
    avgArmAngle (puFrame t) = some (t * (180 / Real.pi)) := by
  rw [avgArmAngle, leftArmAngle_puFrame h0 h1, rightArmAngle_puFrame h0 h1]
  norm_num

theorem armSymmetry_puFrame {t : ℝ} (h0 : 0 ≤ t) (h1 : t ≤ Real.pi) :
    pushUpArmSymmetryScore (puFrame t) = some 1 := by
  rw [pushUpArmSymmetryScore, leftArmAngle_puFrame h0 h1, rightArmAngle_puFrame h0 h1]
  norm_num [checkArmSymmetry]

theorem bodyAlignment_puFrame (t : ℝ) :
    pushUpBodyAlignmentScore (puFrame t) = 1 := by
  rw [pushUpBodyAlignmentScore, puFrame, lmk_mapRange (by norm_num),
      lmk_mapRange (by norm_num), lmk_mapRange (by norm_num), lmk_mapRange (by norm_num)]
  norm_num [puLandmark, mkLm, checkBodyAlignment]

/-! ## Concrete push-up frames: 60° (down) and 170° (up) -/

theorem avgArmAngle_puDown : avgArmAngle (puFrame (Real.pi / 3)) = some 60 := by
  rw [avgArmAngle_puFrame (by positivity) (by linarith [Real.pi_pos])]
  have h := Real.pi_ne_zero
  congr 1
  field_simp
  ring

theorem avgArmAngle_puUp : avgArmAngle (puFrame (17 * Real.pi / 18)) = some 170 := by
  rw [avgArmAngle_puFrame (by positivity) (by linarith [Real.pi_pos])]
  have h := Real.pi_ne_zero
  congr 1
  field_simp
  ring

theorem puDown_criteria : pushUpFormCriteria (puFrame (Real.pi / 3)) = [true, true, true] := by
  have h1 : (0.7 : ℝ) < pushUpBodyAlignmentScore (puFrame (Real.pi / 3)) := by
    rw [bodyAlignment_puFrame]; norm_num
  have h2 : oGT (pushUpArmSymmetryScore (puFrame (Real.pi / 3))) 0.7 := by
    rw [armSymmetry_puFrame (by positivity) (by linarith [Real.pi_pos])]; norm_num
  have h3 : oGT (avgArmAngle (puFrame (Real.pi / 3))) 30 := by
    rw [avgArmAngle_puDown]; norm_num
  have h4 : oLT (avgArmAngle (puFrame (Real.pi / 3))) 180 := by
    rw [avgArmAngle_puDown]; norm_num
  simp [pushUpFormCriteria, h1, h2, h3, h4]

theorem puUp_criteria :
    pushUpFormCriteria (puFrame (17 * Real.pi / 18)) = [true, true, true] := by
  have h1 : (0.7 : ℝ) < pushUpBodyAlignmentScore (puFrame (17 * Real.pi / 18)) := by
    rw [bodyAlignment_puFrame]; norm_num
  have h2 : oGT (pushUpArmSymmetryScore (puFrame (17 * Real.pi / 18))) 0.7 := by
    rw [armSymmetry_puFrame (by positivity) (by linarith [Real.pi_pos])]; norm_num
  have h3 : oGT (avgArmAngle (puFrame (17 * Real.pi / 18))) 30 := by
    rw [avgArmAngle_puUp]; norm_num
  have h4 : oLT (avgArmAngle (puFrame (17 * Real.pi / 18))) 180 := by
    rw [avgArmAngle_puUp]; norm_num
  simp [pushUpFormCriteria, h1, h2, h3, h4]

theorem puDown_valid : pushUpFrameValid (puFrame (Real.pi / 3)) := by
  rw [pushUpFrameValid, pushUpFormScore, puDown_criteria]
  simp [calculateFormScore]
  norm_num

theorem puUp_valid : pushUpFrameValid (puFrame (17 * Real.pi / 18)) := by
  rw [pushUpFrameValid, pushUpFormScore, puUp_criteria]
  simp [calculateFormScore]
  norm_num

theorem puDown_isDown : pushUpIsCurrentlyDown (puFrame (Real.pi / 3)) := by
  rw [pushUpIsCurrentlyDown, avgArmAngle_puDown]; norm_num

theorem puDown_notUp : ¬ pushUpIsCurrentlyUp (puFrame (Real.pi / 3)) := by
  rw [pushUpIsCurrentlyUp, avgArmAngle_puDown]; norm_num

theorem puUp_isUp : pushUpIsCurrentlyUp (puFrame (17 * Real.pi / 18)) := by
  rw [pushUpIsCurrentlyUp, avgArmAngle_puUp]; norm_num

theorem puUp_notDown : ¬ pushUpIsCurrentlyDown (puFrame (17 * Real.pi / 18)) := by
  rw [pushUpIsCurrentlyDown, avgArmAngle_puUp]; norm_num

/-! ## Push-up state machine: branch lemmas -/

theorem pushUpStateStep_enterDown {s : PushUpState} {p : PoseResult} {now : ℤ}
    (hd : pushUpIsCurrentlyDown p) (h2 : s.isInDownPosition = false)
    (hv : pushUpFrameValid p) :
    pushUpStateStep s p now =
      ({ s with isInDownPosition := true, isInUpPosition := false },
       false, ["Good down position!"]) := by
  rw [pushUpStateStep, if_pos ⟨hd, h2, hv⟩]

theorem pushUpStateStep_upHit {s : PushUpState} {p : PoseResult} {now : ℤ}
    (hd : s.isInDownPosition = true) (hu : s.isInUpPosition = false)
    (hcu : pushUpIsCurrentlyUp p) (hv : pushUpFrameValid p)
    (hgate : 1000 ≤ now - s.lastValidationTime) :
    pushUpStateStep s p now =
      ({ s with repCount := s.repCount + 1, isInDownPosition := false,
                isInUpPosition := false, lastValidationTime := now },
       true, ["Great push-up! Count: " ++ toString (s.repCount + 1)]) := by
  rw [pushUpStateStep, if_neg (by simp [hd]), if_pos ⟨hcu, hd, hu, hv⟩]
  simp [hasEnoughTimePassed, hgate]

theorem pushUpStateStep_upMiss {s : PushUpState} {p : PoseResult} {now : ℤ}
    (hd : s.isInDownPosition = true) (hu : s.isInUpPosition = false)
    (hcu : pushUpIsCurrentlyUp p) (hv : pushUpFrameValid p)
    (hgate : now - s.lastValidationTime < 1000) :
    pushUpStateStep s p now = ({ s with isInUpPosition := true }, false, []) := by
  rw [pushUpStateStep, if_neg (by simp [hd]), if_pos ⟨hcu, hd, hu, hv⟩]
  simp [hasEnoughTimePassed, not_le.mpr hgate]

theorem pushUpStateStep_stuck {s : PushUpState} {p : PoseResult} {now : ℤ}
    (hd : s.isInDownPosition = true) (hu : s.isInUpPosition = true) :
    pushUpStateStep s p now = (s, false, []) := by
  rw [pushUpStateStep, if_neg (by simp [hd]), if_neg (by simp [hu])]

theorem pushUpStateStep_repCount (s : PushUpState) (p : PoseResult) (now : ℤ) :
    s.repCount ≤ (pushUpStateStep s p now).1.repCount := by
  rw [pushUpStateStep]
  split_ifs <;> simp

theorem pushUpValidate_main {s : PushUpState} {p : PoseResult} {now : ℤ}
    (hc : ¬ p.confidence < 0.6) (hr : pushUpLandmarksReliable p) :
    pushUpValidate s p now =
      ({ isValid := (addToValidationHistory (pushUpStateStep s p now).1.validationHistory
                      (decide (pushUpFrameValid p))).2,
         feedback := pushUpCriterionFeedback p ++ (pushUpStateStep s p now).2.2 ++
                     pushUpGuidance p,
         completedRep := (pushUpStateStep s p now).2.1,
         formScore := pushUpFormScore p },
       { (pushUpStateStep s p now).1 with
          validationHistory := (addToValidationHistory
            (pushUpStateStep s p now).1.validationHistory
            (decide (pushUpFrameValid p))).1 }) := by
  rw [pushUpValidate, if_neg hc, if_neg (not_not_intro hr)]

theorem pushUpValidate_repCount_mono (s : PushUpState) (p : PoseResult) (now : ℤ) :
    s.repCount ≤ (pushUpValidate s p now).2.repCount := by
  rw [pushUpValidate]
  split_ifs <;> simp [pushUpStateStep_repCount s p now]

theorem pushUpValidate_stuck_inv {s : PushUpState} (h : pushUpStuck s)
    (p : PoseResult) (now : ℤ) :
    pushUpStuck (pushUpValidate s p now).2 ∧
    (pushUpValidate s p now).2.repCount = s.repCount ∧
    (pushUpValidate s p now).1.completedRep = false := by
  obtain ⟨hd, hu⟩ := h
  rw [pushUpValidate]
  split_ifs with h1 h2
  · exact ⟨⟨hd, hu⟩, rfl, rfl⟩
  · rw [pushUpStateStep_stuck hd hu]
    exact ⟨⟨hd, hu⟩, rfl, rfl⟩
  · exact ⟨⟨hd, hu⟩, rfl, rfl⟩

/-! ## Evaluation of the scripted push-up sequence -/

theorem pushUpFormScore_puDown : pushUpFormScore (puFrame (Real.pi / 3)) = 1 := by
  rw [pushUpFormScore, puDown_criteria]
  simp [calculateFormScore]

theorem pushUp_call1 (t1 : ℤ) :
    pushUpValidate pushUpInit (puFrame (Real.pi / 3)) t1 =
      ({ isValid := false, feedback := ["Good down position!", "Push back up"],
         completedRep := false, formScore := 1 },
       { repCount := 0, lastValidationTime := 0, validationHistory := [true],
         isInDownPosition := true, isInUpPosition := false }) := by
  have hcf : pushUpCriterionFeedback (puFrame (Real.pi / 3)) = [] := by
    rw [pushUpCriterionFeedback,
        if_neg (by rw [bodyAlignment_puFrame]; norm_num),
        if_neg (by rw [armSymmetry_puFrame (by positivity) (by linarith [Real.pi_pos])]
                   norm_num)]
    rfl
  have hg : pushUpGuidance (puFrame (Real.pi / 3)) = ["Push back up"] := by
    rw [pushUpGuidance, if_pos puDown_valid,
        if_neg (by rw [avgArmAngle_puDown]; norm_num),
        if_pos (by rw [avgArmAngle_puDown]; norm_num)]
  rw [pushUpValidate_main (by norm_num [puFrame]) (puFrame_reliable _),
      pushUpStateStep_enterDown puDown_isDown rfl puDown_valid,
      decide_eq_true puDown_valid, hcf, hg, pushUpFormScore_puDown]
  simp [addToValidationHistory, historySize, smoothedThreshold, pushUpInit]

theorem pushUp_call2 (t2 : ℤ) (h : 1000 ≤ t2) :
    (pushUpValidate
        { repCount := 0, lastValidationTime := 0, validationHistory := [true],
          isInDownPosition := true, isInUpPosition := false }
        (puFrame (17 * Real.pi / 18)) t2).1.completedRep = true ∧
    (pushUpValidate
        { repCount := 0, lastValidationTime := 0, validationHistory := [true],
          isInDownPosition := true, isInUpPosition := false }
        (puFrame (17 * Real.pi / 18)) t2).2.repCount = 1 := by
  rw [pushUpValidate_main (by norm_num [puFrame]) (puFrame_reliable _),
      pushUpStateStep_upHit rfl rfl puUp_isUp puUp_valid (by simpa using h)]
  exact ⟨rfl, rfl⟩

theorem pushUpValidate_upGateMiss {s : PushUpState} {p : PoseResult} {now : ℤ}
    (hc : ¬ p.confidence < 0.6) (hr : pushUpLandmarksReliable p)
    (hd : s.isInDownPosition = true) (hu : s.isInUpPosition = false)
    (hcu : pushUpIsCurrentlyUp p) (hv : pushUpFrameValid p)
    (hgate : now - s.lastValidationTime < 1000) :
    (pushUpValidate s p now).2.repCount = s.repCount ∧
    (pushUpValidate s p now).1.completedRep = false ∧
    (pushUpValidate s p now).2.isInDownPosition = true ∧
    (pushUpValidate s p now).2.isInUpPosition = true := by
  rw [pushUpValidate_main hc hr, pushUpStateStep_upMiss hd hu hcu hv hgate]
  exact ⟨rfl, rfl, hd, rfl⟩

/-- Claim C4: from the initial push-up state, the scripted sequence [valid
down frame with average arm angle 60°, then an up frame with average arm
angle 170° once more than 1000 ms have elapsed] increments `repCount` exactly
once, with `completedRep = true` only on the up-transition frame; and on any
frame where the Down→Up angle condition holds but the 1000 ms gate has not
elapsed, `repCount` is not incremented. -/
theorem claim4_pushup_rep_sequence :
    (∀ t1 t2 : ℤ, 0 ≤ t1 → t1 + 1000 < t2 →
      avgArmAngle (puFrame (Real.pi / 3)) = some 60 ∧
      avgArmAngle (puFrame (17 * Real.pi / 18)) = some 170 ∧
      (pushUpValidate pushUpInit (puFrame (Real.pi / 3)) t1).1.completedRep = false ∧
      (pushUpValidate pushUpInit (puFrame (Real.pi / 3)) t1).2.repCount = 0 ∧
      (pushUpValidate ((pushUpValidate pushUpInit (puFrame (Real.pi / 3)) t1).2)
          (puFrame (17 * Real.pi / 18)) t2).1.completedRep = true ∧
      (pushUpValidate ((pushUpValidate pushUpInit (puFrame (Real.pi / 3)) t1).2)
          (puFrame (17 * Real.pi / 18)) t2).2.repCount = 1) ∧
    (∀ (s : PushUpState) (p : PoseResult) (now : ℤ),
      ¬ p.confidence < 0.6 → pushUpLandmarksReliable p →
      s.isInDownPosition = true → s.isInUpPosition = false →
      pushUpIsCurrentlyUp p → pushUpFrameValid p →
      now - s.lastValidationTime < 1000 →
      (pushUpValidate s p now).2.repCount = s.repCount ∧
      (pushUpValidate s p now).1.completedRep = false) := by
  constructor
  · intro t1 t2 ht1 ht2
    have h2 : (1000 : ℤ) ≤ t2 := by omega
    rw [pushUp_call1 t1]
    exact ⟨avgArmAngle_puDown, avgArmAngle_puUp, rfl, rfl,
           (pushUp_call2 t2 h2).1, (pushUp_call2 t2 h2).2⟩
  · intro s p now hc hr hd hu hcu hv hg
    have h := pushUpValidate_upGateMiss hc hr hd hu hcu hv hg
    exact ⟨h.1, h.2.1⟩

/-- Witness for C4 at the concrete inputs t1 = 0, t2 = 1500 for the scripted
sequence, and the Down state with the up frame at clock reading 500 for the
gate-miss clause. -/
theorem claim4_pushup_rep_sequence_witness :
    ((0 : ℤ) ≤ 0 ∧ (0 : ℤ) + 1000 < 1500) ∧
    (pushUpValidate ((pushUpValidate pushUpInit (puFrame (Real.pi / 3)) 0).2)
        (puFrame (17 * Real.pi / 18)) 1500).2.repCount = 1 ∧
    ((500 : ℤ) - sDownPU.lastValidationTime < 1000 ∧
     (pushUpValidate sDownPU (puFrame (17 * Real.pi / 18)) 500).2.repCount =
       sDownPU.repCount) := by
  refine ⟨⟨by norm_num, by norm_num⟩, ?_, ⟨by norm_num [sDownPU, pushUpInit], ?_⟩⟩
  · exact (claim4_pushup_rep_sequence.1 0 1500 (by norm_num)
      (by norm_num)).2.2.2.2.2
  · exact (claim4_pushup_rep_sequence.2 sDownPU (puFrame (17 * Real.pi / 18)) 500
      (by norm_num [puFrame]) (puFrame_reliable _) rfl rfl puUp_isUp puUp_valid
      (by norm_num [sDownPU, pushUpInit])).1

/-- Claim C10 (implicit): when the Down→Up transition fires while the 1000 ms
gate has not elapsed, both phase flags end up set; from that configuration no
phase branch fires again, so `repCount` stays constant over every subsequent
frame sequence until `reset()`. -/
theorem claim10_pushup_stuck_state :
    (∀ (s : PushUpState) (p : PoseResult) (now : ℤ),
      ¬ p.confidence < 0.6 → pushUpLandmarksReliable p →
      s.isInDownPosition = true → s.isInUpPosition = false →
      pushUpIsCurrentlyUp p → pushUpFrameValid p →
      now - s.lastValidationTime < 1000 →
      pushUpStuck (pushUpValidate s p now).2) ∧
    (∀ (s : PushUpState) (p : PoseResult) (now : ℤ), pushUpStuck s →
      pushUpStuck (pushUpValidate s p now).2 ∧
      (pushUpValidate s p now).2.repCount = s.repCount ∧
      (pushUpValidate s p now).1.completedRep = false) ∧
    (∀ (s : PushUpState) (inputs : List (PoseResult × ℤ)), pushUpStuck s →
      pushUpStuck (pushUpRun s inputs) ∧ (pushUpRun s inputs).repCount = s.repCount) ∧
    (∀ s : PushUpState, (pushUpReset s).isInDownPosition = false ∧
      (pushUpReset s).isInUpPosition = false ∧ (pushUpReset s).repCount = 0) := by
  refine ⟨?_, fun s p now h => pushUpValidate_stuck_inv h p now, ?_,
          fun s => ⟨rfl, rfl, rfl⟩⟩
  · intro s p now hc hr hd hu hcu hv hg
    have h := pushUpValidate_upGateMiss hc hr hd hu hcu hv hg
    exact ⟨h.2.2.1, h.2.2.2⟩
  · intro s inputs h
    induction inputs generalizing s with
    | nil => exact ⟨h, rfl⟩
    | cons a l ih =>
      have h1 := pushUpValidate_stuck_inv h a.1 a.2
      have h2 := ih _ h1.1
      refine ⟨h2.1, ?_⟩
      rw [pushUpRun] at h2 ⊢
      simp only [List.foldl_cons]
      rw [h2.2, h1.2.1]

/-- Witness for C10: the gate-miss clause at the Down state with clock 500,
and the stuck state run over two further frames. -/
theorem claim10_pushup_stuck_state_witness :
    pushUpStuck (pushUpValidate sDownPU (puFrame (17 * Real.pi / 18)) 500).2 ∧
    pushUpStuck (pushUpRun sStuckPU [(lowConfFrame, 0), (lowConfFrame, 700)]) ∧
    (pushUpRun sStuckPU [(lowConfFrame, 0), (lowConfFrame, 700)]).repCount =
      sStuckPU.repCount := by
  have h : pushUpStuck sStuckPU := ⟨rfl, rfl⟩
  refine ⟨claim10_pushup_stuck_state.1 sDownPU (puFrame (17 * Real.pi / 18)) 500
      (by norm_num [puFrame]) (puFrame_reliable _) rfl rfl puUp_isUp puUp_valid
      (by norm_num [sDownPU, pushUpInit]), ?_, ?_⟩
  · exact (claim10_pushup_stuck_state.2.2.1 sStuckPU _ h).1
  · exact (claim10_pushup_stuck_state.2.2.1 sStuckPU _ h).2

/-- Claim C7, counterexample: the same frame (identical landmarks, confidence
and frame timestamp) validated from the same Down state produces different
outputs when the live clock reads 500 versus 5000 — the rep gate consumes
`Date.now()`, not the frame-supplied timestamp, so a replay of the same frame
sequence is not deterministic. -/
theorem claim7_clock_counterexample :
    (pushUpValidate sDownPU (puFrame (17 * Real.pi / 18)) 500).2.repCount = 0 ∧
    (pushUpValidate sDownPU (puFrame (17 * Real.pi / 18)) 5000).2.repCount = 1 := by
  constructor
  · have h := @pushUpValidate_upGateMiss sDownPU (puFrame (17 * Real.pi / 18)) 500
      (by norm_num [puFrame]) (puFrame_reliable _) rfl rfl puUp_isUp puUp_valid
      (by norm_num [sDownPU, pushUpInit])
    simpa [sDownPU, pushUpInit] using h.1
  · rw [pushUpValidate_main (by norm_num [puFrame]) (puFrame_reliable _),
        pushUpStateStep_upHit rfl rfl puUp_isUp puUp_valid
          (by norm_num [sDownPU, pushUpInit])]
    rfl

/-! ## Congruence of the stability computation under timestamp changes -/

theorem landmarkMovement_congr {p p' q q' : PoseResult} (i : ℕ)
    (h1 : p.landmarks = p'.landmarks) (h2 : q.landmarks = q'.landmarks) :
    landmarkMovement p q i = landmarkMovement p' q' i := by
  simp only [landmarkMovement, getLandmark, h1, h2]

theorem pairTotals_congr {p p' q q' : PoseResult}
    (h1 : p.landmarks = p'.landmarks) (h2 : q.landmarks = q'.landmarks) :
    pairTotals p q = pairTotals p' q' := by
  rw [pairTotals, pairTotals]
  congr 1
  funext acc i
  rw [landmarkMovement_congr i h1 h2]

theorem stabTotals_congr {l l' : List PoseResult}
    (h : List.Forall₂ sameLandmarks l l') : stabTotals l = stabTotals l' := by
  induction h with
  | nil => rfl
  | @cons a a' t t' h1 h2 ih =>
    cases h2 with
    | nil => rfl
    | @cons b b' r r' hb ht =>
      simp only [stabTotals]
      rw [pairTotals_congr h1 hb, ih]

theorem calculatePoseStability_congr {l l' : List PoseResult}
    (h : List.Forall₂ sameLandmarks l l') :
    calculatePoseStability l = calculatePoseStability l' := by
  rw [calculatePoseStability, calculatePoseStability, stabTotals_congr h, h.length_eq]

theorem forall₂_sameLandmarks_refl (l : List PoseResult) :
    List.Forall₂ sameLandmarks l l :=
  List.forall₂_same.mpr fun _ _ => rfl

theorem forall₂_tail {r : PoseResult → PoseResult → Prop} :
    ∀ {l l' : List PoseResult}, List.Forall₂ r l l' → List.Forall₂ r l.tail l'.tail
  | _, _, List.Forall₂.nil => List.Forall₂.nil
  | _, _, List.Forall₂.cons _ h => h

theorem addToRecentPoses_congr (l : List PoseResult) {p p' : PoseResult}
    (h : p.landmarks = p'.landmarks) :
    List.Forall₂ sameLandmarks (addToRecentPoses l p) (addToRecentPoses l p') := by
  have happ : List.Forall₂ sameLandmarks (l ++ [p]) (l ++ [p']) :=
    List.rel_append (forall₂_sameLandmarks_refl l)
      (List.Forall₂.cons h List.Forall₂.nil)
  have hlen : (l ++ [p]).length = (l ++ [p']).length := by simp
  rw [addToRecentPoses, addToRecentPoses]
  split_ifs with h1 h2 h3
  · exact forall₂_tail happ
  · exact absurd (hlen ▸ h1) h2
  · exact absurd (hlen.symm ▸ h3) h1
  · exact happ

theorem plankStateStep_congr {s0 s0' : PlankState} {p p' : PoseResult} {now : ℤ}
    (hfe : PlankFieldsEq s0' s0)
    (hv : plankFrameValid s0'.recentPoses p' ↔ plankFrameValid s0.recentPoses p) :
    PlankFieldsEq (plankStateStep s0' p' now).1 (plankStateStep s0 p now).1 ∧
    (plankStateStep s0' p' now).2.1 = (plankStateStep s0 p now).2.1 ∧
    (plankStateStep s0' p' now).2.2 = (plankStateStep s0 p now).2.2 := by
  obtain ⟨h1, h2, h3, h4, h5, h6, h7, h8⟩ := hfe
  rw [plankStateStep, plankStateStep, handleInvalidPose, handleInvalidPose]
  simp only [h1, h2, h3, h4, h5, h6, h7, h8]
  by_cases hval : plankFrameValid s0.recentPoses p
  · rw [if_pos hval, if_pos (hv.mpr hval)]
    split_ifs <;>
      refine ⟨⟨?_, ?_, ?_, ?_, ?_, ?_, ?_, ?_⟩, ?_, ?_⟩ <;>
        simp [h1, h2, h3, h4, h5, h6, h7, h8]
  · rw [if_neg hval, if_neg (fun hx => hval (hv.mp hx))]
    split_ifs <;>
      refine ⟨⟨?_, ?_, ?_, ?_, ?_, ?_, ?_, ?_⟩, ?_, ?_⟩ <;>
        simp [h1, h2, h3, h4, h5, h6, h7, h8]

theorem plankValidate_timestamp (s : PlankState) (p : PoseResult) (now ts : ℤ) :
    (plankValidate s { p with timestamp := ts } now).1 = (plankValidate s p now).1 ∧
    PlankFieldsEq (plankValidate s { p with timestamp := ts } now).2
      (plankValidate s p now).2 := by
  obtain ⟨pl, pc, pt⟩ := p
  have hp : ({ (⟨pl, pc, pt⟩ : PoseResult) with timestamp := ts }) =
      (⟨pl, pc, ts⟩ : PoseResult) := rfl
  rw [hp]
  have hlm : (⟨pl, pc, ts⟩ : PoseResult).landmarks =
      (⟨pl, pc, pt⟩ : PoseResult).landmarks := rfl
  have hstab : calculatePoseStability (addToRecentPoses s.recentPoses ⟨pl, pc, ts⟩) =
      calculatePoseStability (addToRecentPoses s.recentPoses ⟨pl, pc, pt⟩) :=
    calculatePoseStability_congr (addToRecentPoses_congr s.recentPoses hlm)
  have hfs : plankFormScore (addToRecentPoses s.recentPoses ⟨pl, pc, ts⟩) ⟨pl, pc, ts⟩ =
      plankFormScore (addToRecentPoses s.recentPoses ⟨pl, pc, pt⟩) ⟨pl, pc, pt⟩ := by
    rw [plankFormScore, plankFormScore, plankFormCriteria, plankFormCriteria, hstab]
    exact rfl
  have hval : plankFrameValid (addToRecentPoses s.recentPoses ⟨pl, pc, ts⟩) ⟨pl, pc, ts⟩ ↔
      plankFrameValid (addToRecentPoses s.recentPoses ⟨pl, pc, pt⟩) ⟨pl, pc, pt⟩ := by
    rw [plankFrameValid, plankFrameValid, hfs]
  have hcf : plankCriterionFeedback (plankAfterPose s ⟨pl, pc, ts⟩).recentPoses
        ⟨pl, pc, ts⟩ =
      plankCriterionFeedback (plankAfterPose s ⟨pl, pc, pt⟩).recentPoses
        ⟨pl, pc, pt⟩ := by
    show plankCriterionFeedback (addToRecentPoses s.recentPoses ⟨pl, pc, ts⟩)
        ⟨pl, pc, ts⟩ =
      plankCriterionFeedback (addToRecentPoses s.recentPoses ⟨pl, pc, pt⟩)
        ⟨pl, pc, pt⟩
    rw [plankCriterionFeedback, plankCriterionFeedback, hstab]
    exact rfl
  have hfe0 : PlankFieldsEq (plankAfterPose s ⟨pl, pc, ts⟩) (plankAfterPose s ⟨pl, pc, pt⟩) :=
    ⟨rfl, rfl, rfl, rfl, rfl, rfl, rfl, rfl⟩
  have hcong := @plankStateStep_congr _ _ ⟨pl, pc, pt⟩ ⟨pl, pc, ts⟩ now hfe0 hval
  obtain ⟨⟨g1, g2, g3, g4, g5, g6, g7, g8⟩, gc, gf⟩ := hcong
  have hinv : ∀ q : PoseResult,
      handleInvalidPose (plankAfterPose s q) now =
        if s.isInPlankPosition = true ∧ 1000 < now - s.lastStableTime then
          { plankAfterPose s q with isInPlankPosition := false }
        else plankAfterPose s q := fun _ => rfl
  rw [plankValidate, plankValidate]
  by_cases hc : pc < 0.6
  · rw [if_pos hc, if_pos hc]
    refine ⟨rfl, ?_⟩
    rw [hinv ⟨pl, pc, ts⟩, hinv ⟨pl, pc, pt⟩]
    split_ifs <;> exact ⟨rfl, rfl, rfl, rfl, rfl, rfl, rfl, rfl⟩
  · rw [if_neg hc, if_neg hc]
    by_cases hr : plankLandmarksReliable ⟨pl, pc, pt⟩
    · rw [if_neg ((not_not_intro hr : ¬¬ plankLandmarksReliable ⟨pl, pc, ts⟩)),
          if_neg (not_not_intro hr)]
      have hdec : decide (plankFrameValid
            (plankAfterPose s ⟨pl, pc, ts⟩).recentPoses ⟨pl, pc, ts⟩) =
          decide (plankFrameValid
            (plankAfterPose s ⟨pl, pc, pt⟩).recentPoses ⟨pl, pc, pt⟩) :=
        decide_eq_decide.mpr hval
      constructor
      have hfs2 : plankFormScore (plankAfterPose s ⟨pl, pc, ts⟩).recentPoses ⟨pl, pc, ts⟩ =
          plankFormScore (plankAfterPose s ⟨pl, pc, pt⟩).recentPoses ⟨pl, pc, pt⟩ := hfs
      · dsimp only
        rw [hdec]
        rw [g3]
        rw [gc]
        rw [gf]
        rw [hcf]
        rw [hfs2]
      · dsimp only
        refine ⟨g1, g2, ?_, g4, g5, g6, g7, g8⟩
        dsimp only
        rw [hdec]
        rw [g3]
    · have hrts : ¬ plankLandmarksReliable ⟨pl, pc, ts⟩ := hr
      rw [if_pos hrts, if_pos hr]
      refine ⟨rfl, ?_⟩
      rw [hinv ⟨pl, pc, ts⟩, hinv ⟨pl, pc, pt⟩]
      split_ifs <;> exact ⟨rfl, rfl, rfl, rfl, rfl, rfl, rfl, rfl⟩

/-- Claim C7, amended: each validator's `validate` is a pure function of the
validator state, the frame's landmarks and confidence, and the `Date.now()`
reading taken during the call.  The frame-supplied timestamp is never read:
changing it changes nothing in the output or state except the copy of the
frame stored in the plank's recent-pose buffer.  The timing decisions consume
the live clock reading, so replaying the same frames at different wall-clock
times can change the output (see the counterexample). -/
theorem claim7_clock_determinism_amended :
    (∀ (s : PushUpState) (p : PoseResult) (now ts : ℤ),
      pushUpValidate s { p with timestamp := ts } now = pushUpValidate s p now) ∧
    (∀ (s : ChinUpState) (p : PoseResult) (now ts : ℤ),
      chinUpValidate s { p with timestamp := ts } now = chinUpValidate s p now) ∧
    (∀ (s : PlankState) (p : PoseResult) (now ts : ℤ),
      (plankValidate s { p with timestamp := ts } now).1 = (plankValidate s p now).1 ∧
      PlankFieldsEq (plankValidate s { p with timestamp := ts } now).2
        (plankValidate s p now).2) :=
  ⟨fun _ _ _ _ => rfl, fun _ _ _ _ => rfl, plankValidate_timestamp⟩

/-! ## Repetition-count monotonicity -/

theorem chinUpStateStep_repCount (s : ChinUpState) (p : PoseResult) (now : ℤ) :
    s.repCount ≤ (chinUpStateStep s p now).1.repCount := by
  rw [chinUpStateStep]
  split_ifs <;> simp

theorem chinUpValidate_repCount_mono (s : ChinUpState) (p : PoseResult) (now : ℤ) :
    s.repCount ≤ (chinUpValidate s p now).2.repCount := by
  rw [chinUpValidate]
  split_ifs <;> simp [chinUpStateStep_repCount s p now]

theorem handleInvalidPose_repCount (s : PlankState) (now : ℤ) :
    (handleInvalidPose s now).repCount = s.repCount := by
  rw [handleInvalidPose]
  split_ifs <;> rfl

theorem plankStateStep_repCount (s0 : PlankState) (p : PoseResult) (now : ℤ) :
    s0.repCount ≤ (plankStateStep s0 p now).1.repCount := by
  rw [plankStateStep]
  split_ifs <;> simp [handleInvalidPose_repCount]

theorem plankValidate_repCount_mono (s : PlankState) (p : PoseResult) (now : ℤ) :
    s.repCount ≤ (plankValidate s p now).2.repCount := by
  rw [plankValidate]
  split_ifs
  · simp [handleInvalidPose_repCount, plankAfterPose]
  · exact plankStateStep_repCount (plankAfterPose s p) p now
  · simp [handleInvalidPose_repCount, plankAfterPose]

/-- Claim C9: for each validator, `repCount` is non-negative (it lives in ℕ),
never decreases across any single `validate` call nor across any sequence of
calls, and `reset()` is the operation that returns it to 0. -/
theorem claim9_repcount_monotone :
    (∀ (s : PushUpState) (p : PoseResult) (now : ℤ),
      s.repCount ≤ (pushUpValidate s p now).2.repCount) ∧
    (∀ (s : ChinUpState) (p : PoseResult) (now : ℤ),
      s.repCount ≤ (chinUpValidate s p now).2.repCount) ∧
    (∀ (s : PlankState) (p : PoseResult) (now : ℤ),
      s.repCount ≤ (plankValidate s p now).2.repCount) ∧
    (∀ (s : PushUpState) (inputs : List (PoseResult × ℤ)),
      s.repCount ≤ (pushUpRun s inputs).repCount) ∧
    (∀ (s : ChinUpState) (inputs : List (PoseResult × ℤ)),
      s.repCount ≤ (chinUpRun s inputs).repCount) ∧
    (∀ (s : PlankState) (inputs : List (PoseResult × ℤ)),
      s.repCount ≤ (plankRun s inputs).repCount) ∧
    (∀ s : PushUpState, (pushUpReset s).repCount = 0) ∧
    (∀ s : ChinUpState, (chinUpReset s).repCount = 0) ∧
    (∀ s : PlankState, (plankReset s).repCount = 0) := by
  refine ⟨pushUpValidate_repCount_mono, chinUpValidate_repCount_mono,
          plankValidate_repCount_mono, ?_, ?_, ?_,
          fun _ => rfl, fun _ => rfl, fun _ => rfl⟩
  · intro s inputs
    induction inputs generalizing s with
    | nil => exact le_refl _
    | cons a l ih =>
      rw [pushUpRun]
      simp only [List.foldl_cons]
      exact le_trans (pushUpValidate_repCount_mono s a.1 a.2) (ih _)
  · intro s inputs
    induction inputs generalizing s with
    | nil => exact le_refl _
    | cons a l ih =>
      rw [chinUpRun]
      simp only [List.foldl_cons]
      exact le_trans (chinUpValidate_repCount_mono s a.1 a.2) (ih _)
  · intro s inputs
    induction inputs generalizing s with
    | nil => exact le_refl _
    | cons a l ih =>
      rw [plankRun]
      simp only [List.foldl_cons]
      exact le_trans (plankValidate_repCount_mono s a.1 a.2) (ih _)

/-- Claim C8: `checkChinOverBar` returns 0 when `nose.y` is not above the
mean of the wrists' `y` (smaller `y` = higher); otherwise it returns the
vertical clearance divided by 0.05 capped at 1 — a value in `(0, 1]` that
equals 1 whenever the clearance is at least 0.05. -/
theorem claim8_chin_over_bar (nose leftWrist rightWrist : Landmark3D) :
    ((leftWrist.y + rightWrist.y) / 2 ≤ nose.y →
      checkChinOverBar nose leftWrist rightWrist = 0) ∧
    (nose.y < (leftWrist.y + rightWrist.y) / 2 →
      checkChinOverBar nose leftWrist rightWrist =
        min 1 (((leftWrist.y + rightWrist.y) / 2 - nose.y) / 0.05) ∧
      0 < checkChinOverBar nose leftWrist rightWrist ∧
      checkChinOverBar nose leftWrist rightWrist ≤ 1 ∧
      (0.05 ≤ (leftWrist.y + rightWrist.y) / 2 - nose.y →
        checkChinOverBar nose leftWrist rightWrist = 1)) := by
  constructor
  · intro h
    rw [checkChinOverBar, if_neg (not_lt.mpr h)]
  · intro h
    rw [checkChinOverBar, if_pos h]
    refine ⟨rfl, ?_, min_le_left _ _, ?_⟩
    · exact lt_min one_pos (div_pos (by linarith) (by norm_num))
    · intro h5
      rw [min_eq_left]
      rw [le_div_iff₀ (by norm_num : (0 : ℝ) < 0.05)]
      linarith

/-- Witness for C8 at concrete landmarks: wrists at height 0.4; a nose at 0.5
(below the bar) scores 0, a nose at 0.3 (clearance 0.1 ≥ 0.05) scores 1, and
a nose at 0.38 (clearance 0.02) scores strictly above 0. -/
theorem claim8_chin_over_bar_witness :
    checkChinOverBar (mkLm 0 0.5) (mkLm 0 0.4) (mkLm 0.2 0.4) = 0 ∧
    checkChinOverBar (mkLm 0 0.3) (mkLm 0 0.4) (mkLm 0.2 0.4) = 1 ∧
    0 < checkChinOverBar (mkLm 0 0.38) (mkLm 0 0.4) (mkLm 0.2 0.4) := by
  refine ⟨(claim8_chin_over_bar _ _ _).1 (by norm_num [mkLm]),
          ((claim8_chin_over_bar _ _ _).2 (by norm_num [mkLm])).2.2.2
            (by norm_num [mkLm]),
          ((claim8_chin_over_bar _ _ _).2 (by norm_num [mkLm])).2.1⟩

/-- Claim C3, counterexample: at three coincident points both vectors have
zero length, the quotient `dot / (|ba|*|bc|)` is NaN, and `calculateAngle`
returns NaN (`none`) instead of a defined value in `[0, 180]` — the cosine is
not clamped and the degenerate case is not guarded. -/
theorem claim3_angle_counterexample :
    calculateAngle ⟨0, 0, 0, none⟩ ⟨0, 0, 0, none⟩ ⟨0, 0, 0, none⟩ = none := by
  norm_num [calculateAngle, Real.sqrt_zero]

theorem abs_dot_le_sqrt_mul (x1 y1 x2 y2 : ℝ) :
    |x1 * x2 + y1 * y2| ≤
      Real.sqrt (x1 * x1 + y1 * y1) * Real.sqrt (x2 * x2 + y2 * y2) := by
  have hcs : (x1 * x2 + y1 * y2) ^ 2 ≤ (x1 * x1 + y1 * y1) * (x2 * x2 + y2 * y2) := by
    nlinarith [sq_nonneg (x1 * y2 - y1 * x2)]
  calc |x1 * x2 + y1 * y2| = Real.sqrt ((x1 * x2 + y1 * y2) ^ 2) :=
        (Real.sqrt_sq_eq_abs _).symm
    _ ≤ Real.sqrt ((x1 * x1 + y1 * y1) * (x2 * x2 + y2 * y2)) :=
        Real.sqrt_le_sqrt hcs
    _ = Real.sqrt (x1 * x1 + y1 * y1) * Real.sqrt (x2 * x2 + y2 * y2) :=
        Real.sqrt_mul (add_nonneg (mul_self_nonneg x1) (mul_self_nonneg y1)) _

/-- Claim C3, amended: for every triple of points whose two vectors `b→a` and
`b→c` are both nonzero, the exact-arithmetic cosine quotient lies in
`[-1, 1]` (Cauchy–Schwarz), so `calculateAngle` returns a defined angle in
`[0, 180]` degrees; coincident points, however, produce NaN. -/
theorem claim3_angle_amended (a b c : Landmark3D)
    (h1 : ¬(a.x = b.x ∧ a.y = b.y)) (h2 : ¬(c.x = b.x ∧ c.y = b.y)) :
    ∃ θ : ℝ, calculateAngle a b c = some θ ∧ 0 ≤ θ ∧ θ ≤ 180 := by
  have hx1 : a.x - b.x ≠ 0 ∨ a.y - b.y ≠ 0 := by
    rcases not_and_or.mp h1 with h | h
    · exact Or.inl (sub_ne_zero.mpr h)
    · exact Or.inr (sub_ne_zero.mpr h)
  have hx2 : c.x - b.x ≠ 0 ∨ c.y - b.y ≠ 0 := by
    rcases not_and_or.mp h2 with h | h
    · exact Or.inl (sub_ne_zero.mpr h)
    · exact Or.inr (sub_ne_zero.mpr h)
  have hba : 0 < (a.x - b.x) * (a.x - b.x) + (a.y - b.y) * (a.y - b.y) := by
    rcases hx1 with h | h <;>
      nlinarith [mul_self_nonneg (a.x - b.x), mul_self_nonneg (a.y - b.y),
                 mul_self_pos.mpr h]
  have hbc : 0 < (c.x - b.x) * (c.x - b.x) + (c.y - b.y) * (c.y - b.y) := by
    rcases hx2 with h | h <;>
      nlinarith [mul_self_nonneg (c.x - b.x), mul_self_nonneg (c.y - b.y),
                 mul_self_pos.mpr h]
  have hM : 0 < Real.sqrt ((a.x - b.x) * (a.x - b.x) + (a.y - b.y) * (a.y - b.y)) *
      Real.sqrt ((c.x - b.x) * (c.x - b.x) + (c.y - b.y) * (c.y - b.y)) :=
    mul_pos (Real.sqrt_pos.mpr hba) (Real.sqrt_pos.mpr hbc)
  have habs := abs_dot_le_sqrt_mul (a.x - b.x) (a.y - b.y) (c.x - b.x) (c.y - b.y)
  have hup := (abs_le.mp habs).2
  have hlo := (abs_le.mp habs).1
  rw [calculateAngle]
  rw [if_neg (ne_of_gt hM)]
  rw [if_neg ?hdom]
  case hdom =>
    rintro (h | h)
    · rw [div_lt_iff₀ hM] at h
      linarith
    · rw [lt_div_iff₀ hM] at h
      linarith
  refine ⟨_, rfl, ?_, ?_⟩
  · exact mul_nonneg (Real.arccos_nonneg _) (by positivity)
  · have harc := Real.arccos_le_pi (((a.x - b.x) * (c.x - b.x) +
      (a.y - b.y) * (c.y - b.y)) /
      (Real.sqrt ((a.x - b.x) * (a.x - b.x) + (a.y - b.y) * (a.y - b.y)) *
       Real.sqrt ((c.x - b.x) * (c.x - b.x) + (c.y - b.y) * (c.y - b.y))))
    have h180 : Real.pi * (180 / Real.pi) = 180 := by
      field_simp
    calc Real.arccos _ * (180 / Real.pi) ≤ Real.pi * (180 / Real.pi) :=
          mul_le_mul_of_nonneg_right harc (by positivity)
      _ = 180 := h180

/-- Witness for C3 (amended) at the right-angle triple (1,0), (0,0), (0,1). -/
theorem claim3_angle_amended_witness :
    (¬(((⟨1, 0, 0, none⟩ : Landmark3D).x = (⟨0, 0, 0, none⟩ : Landmark3D).x ∧
        (⟨1, 0, 0, none⟩ : Landmark3D).y = (⟨0, 0, 0, none⟩ : Landmark3D).y))) ∧
    ∃ θ : ℝ, calculateAngle ⟨1, 0, 0, none⟩ ⟨0, 0, 0, none⟩ ⟨0, 1, 0, none⟩ = some θ ∧
      0 ≤ θ ∧ θ ≤ 180 :=
  ⟨by norm_num,
   claim3_angle_amended ⟨1, 0, 0, none⟩ ⟨0, 0, 0, none⟩ ⟨0, 1, 0, none⟩
     (by norm_num) (by norm_num)⟩

/-! ## Evaluation of the concrete plank frames -/

theorem sqrt_eval {x y : ℝ} (hy : 0 ≤ y) (h : x = y ^ 2) : Real.sqrt x = y := by
  rw [h, Real.sqrt_sq hy]

theorem lmk_plankGood {i : ℕ} (h : i < 29) : lmk plankGoodFrame i = plankGoodLm i := by
  rw [plankGoodFrame]
  exact lmk_mapRange h

theorem lmk_plankBad {i : ℕ} (h : i < 29) : lmk plankBadFrame i = plankBadLm i := by
  rw [plankBadFrame]
  exact lmk_mapRange h

theorem pairTotals_self (p : PoseResult)
    (h : ∀ i ∈ keyLandmarks, ∃ l, getLandmark p i = some l) :
    pairTotals p p = (0, 8) := by
  obtain ⟨l11, h11⟩ := h 11 (by norm_num [keyLandmarks])
  obtain ⟨l12, h12⟩ := h 12 (by norm_num [keyLandmarks])
  obtain ⟨l13, h13⟩ := h 13 (by norm_num [keyLandmarks])
  obtain ⟨l14, h14⟩ := h 14 (by norm_num [keyLandmarks])
  obtain ⟨l15, h15⟩ := h 15 (by norm_num [keyLandmarks])
  obtain ⟨l16, h16⟩ := h 16 (by norm_num [keyLandmarks])
  obtain ⟨l23, h23⟩ := h 23 (by norm_num [keyLandmarks])
  obtain ⟨l24, h24⟩ := h 24 (by norm_num [keyLandmarks])
  simp [pairTotals, keyLandmarks, landmarkMovement, h11, h12, h13, h14, h15, h16,
        h23, h24, sub_self, Real.sqrt_zero]

theorem plankGood_keyLandmarks :
    ∀ i ∈ keyLandmarks, ∃ l, getLandmark plankGoodFrame i = some l := by
  intro i hi
  fin_cases hi <;>
    exact ⟨_, by rw [plankGoodFrame]; exact getLandmark_mapRange (by norm_num)⟩

theorem stability_single (p : PoseResult) : calculatePoseStability [p] = 0 := by
  rw [calculatePoseStability, if_pos (by norm_num)]

theorem stability_two_self (p : PoseResult)
    (h : ∀ i ∈ keyLandmarks, ∃ l, getLandmark p i = some l) :
    calculatePoseStability [p, p] = 1 := by
  rw [calculatePoseStability, if_neg (by norm_num)]
  simp [stabTotals, pairTotals_self p h]

theorem stability_three_self (p : PoseResult)
    (h : ∀ i ∈ keyLandmarks, ∃ l, getLandmark p i = some l) :
    calculatePoseStability [p, p, p] = 1 := by
  rw [calculatePoseStability, if_neg (by norm_num)]
  simp [stabTotals, pairTotals_self p h]

theorem centerLm_shoulders_good :
    centerLm (plankGoodLm 11) (plankGoodLm 12) = ⟨0.1, 0.5, 0, none⟩ := by
  norm_num [centerLm, plankGoodLm, mkLm]

theorem centerLm_hips_good :
    centerLm (plankGoodLm 23) (plankGoodLm 24) = ⟨0.5, 0.5, 0, none⟩ := by
  norm_num [centerLm, plankGoodLm, mkLm]

theorem centerLm_ankles_good :
    centerLm (plankGoodLm 27) (plankGoodLm 28) = ⟨0.9, 0.5, 0, none⟩ := by
  norm_num [centerLm, plankGoodLm, mkLm]

theorem ptl_good_mid :
    pointToLineDistance ⟨0.5, 0.5, 0, none⟩ ⟨0.1, 0.5, 0, none⟩ ⟨0.9, 0.5, 0, none⟩ = 0 := by
  rw [pointToLineDistance]
  norm_num [Real.sqrt_zero]

theorem plankGood_aligned :
    areLandmarksAligned
      [(⟨0.1, 0.5, 0, none⟩ : Landmark3D), ⟨0.5, 0.5, 0, none⟩, ⟨0.9, 0.5, 0, none⟩]
      0.1 := by
  show ∀ p ∈ [(⟨0.5, 0.5, 0, none⟩ : Landmark3D)],
      pointToLineDistance p ⟨0.1, 0.5, 0, none⟩ ⟨0.9, 0.5, 0, none⟩ ≤ 0.1
  intro q hq
  rw [List.mem_singleton] at hq
  subst hq
  rw [ptl_good_mid]
  norm_num

theorem plankGood_alignScore : plankAlignScore plankGoodFrame = some 1 := by
  rw [plankAlignScore]
  rw [lmk_plankGood (by norm_num : (11:ℕ) < 29), lmk_plankGood (by norm_num : (12:ℕ) < 29),
      lmk_plankGood (by norm_num : (23:ℕ) < 29), lmk_plankGood (by norm_num : (24:ℕ) < 29),
      lmk_plankGood (by norm_num : (27:ℕ) < 29), lmk_plankGood (by norm_num : (28:ℕ) < 29)]
  rw [plankCheckBodyAlignment,
      centerLm_shoulders_good, centerLm_hips_good, centerLm_ankles_good,
      if_pos plankGood_aligned]

theorem plankGood_elbowScore : plankElbowScore plankGoodFrame = 1 := by
  rw [plankElbowScore]
  rw [lmk_plankGood (by norm_num : (11:ℕ) < 29), lmk_plankGood (by norm_num : (13:ℕ) < 29),
      lmk_plankGood (by norm_num : (15:ℕ) < 29), lmk_plankGood (by norm_num : (12:ℕ) < 29),
      lmk_plankGood (by norm_num : (14:ℕ) < 29), lmk_plankGood (by norm_num : (16:ℕ) < 29)]
  norm_num [plankCheckElbowPosition, plankGoodLm, mkLm]

theorem plankGood_hipScore : plankHipScore plankGoodFrame = some 1 := by
  rw [plankHipScore]
  rw [lmk_plankGood (by norm_num : (11:ℕ) < 29), lmk_plankGood (by norm_num : (12:ℕ) < 29),
      lmk_plankGood (by norm_num : (23:ℕ) < 29), lmk_plankGood (by norm_num : (24:ℕ) < 29),
      lmk_plankGood (by norm_num : (27:ℕ) < 29), lmk_plankGood (by norm_num : (28:ℕ) < 29)]
  rw [plankCheckHipPosition,
      centerLm_shoulders_good, centerLm_hips_good, centerLm_ankles_good]
  dsimp only
  have hsm : Real.sqrt (((0.1:ℝ) - 0.5) ^ 2 + ((0.5:ℝ) - 0.5) ^ 2) = 0.4 :=
    sqrt_eval (by norm_num) (by norm_num)
  have ham : Real.sqrt (((0.9:ℝ) - 0.5) ^ 2 + ((0.5:ℝ) - 0.5) ^ 2) = 0.4 :=
    sqrt_eval (by norm_num) (by norm_num)
  rw [hsm, ham]
  rw [if_neg (by norm_num)]
  have hq : (((0.1:ℝ) - 0.5) * ((0.9:ℝ) - 0.5) + ((0.5:ℝ) - 0.5) * ((0.5:ℝ) - 0.5)) /
      ((0.4:ℝ) * 0.4) = -1 := by norm_num
  rw [hq]
  have hclamp : max (-1:ℝ) (min 1 (-1)) = -1 := by norm_num
  rw [hclamp, Real.arccos_neg_one]
  have hpi : Real.pi * (180 / Real.pi) = 180 := by field_simp
  rw [hpi]
  norm_num

theorem centerLm_shoulders_bad :
    centerLm (plankBadLm 11) (plankBadLm 12) = ⟨0.1, 0.5, 0, none⟩ := by
  norm_num [centerLm, plankBadLm, mkLm]

theorem centerLm_hips_bad :
    centerLm (plankBadLm 23) (plankBadLm 24) = ⟨0.5, 0.9, 0, none⟩ := by
  norm_num [centerLm, plankBadLm, mkLm]

theorem centerLm_ankles_bad :
    centerLm (plankBadLm 27) (plankBadLm 28) = ⟨0.9, 0.5, 0, none⟩ := by
  norm_num [centerLm, plankBadLm, mkLm]

theorem ptl_bad_mid :
    pointToLineDistance ⟨0.5, 0.9, 0, none⟩ ⟨0.1, 0.5, 0, none⟩ ⟨0.9, 0.5, 0, none⟩
      = 0.4 := by
  rw [pointToLineDistance]
  norm_num
  rw [show (4:ℝ) = 2 ^ 2 by norm_num, show (25:ℝ) = 5 ^ 2 by norm_num,
      Real.sqrt_sq (by norm_num : (0:ℝ) ≤ 2), Real.sqrt_sq (by norm_num : (0:ℝ) ≤ 5)]

theorem plankBad_not_aligned :
    ¬ areLandmarksAligned
      [(⟨0.1, 0.5, 0, none⟩ : Landmark3D), ⟨0.5, 0.9, 0, none⟩, ⟨0.9, 0.5, 0, none⟩]
      0.1 := by
  intro h
  have h3 : pointToLineDistance ⟨0.5, 0.9, 0, none⟩ ⟨0.1, 0.5, 0, none⟩
      ⟨0.9, 0.5, 0, none⟩ ≤ 0.1 :=
    h ⟨0.5, 0.9, 0, none⟩ (List.mem_singleton.mpr rfl)
  rw [ptl_bad_mid] at h3
  norm_num at h3

theorem cba_bad :
    calculateBodyAngle ⟨0.1, 0.5, 0, none⟩ ⟨0.5, 0.9, 0, none⟩ ⟨0.9, 0.5, 0, none⟩
      = some 90 := by
  rw [calculateBodyAngle]
  dsimp only
  have hm : Real.sqrt (((0.1:ℝ) - 0.5) ^ 2 + ((0.5:ℝ) - 0.9) ^ 2) *
      Real.sqrt (((0.9:ℝ) - 0.5) ^ 2 + ((0.5:ℝ) - 0.9) ^ 2) = 0.32 := by
    rw [show ((0.1:ℝ) - 0.5) ^ 2 + ((0.5:ℝ) - 0.9) ^ 2 = 0.32 by norm_num,
        show ((0.9:ℝ) - 0.5) ^ 2 + ((0.5:ℝ) - 0.9) ^ 2 = 0.32 by norm_num,
        Real.mul_self_sqrt (by norm_num)]
  rw [hm]
  rw [if_neg (by norm_num)]
  have hq : (((0.1:ℝ) - 0.5) * ((0.9:ℝ) - 0.5) + ((0.5:ℝ) - 0.9) * ((0.5:ℝ) - 0.9)) /
      (0.32 : ℝ) = 0 := by norm_num
  rw [hq]
  have hcl : max (-1 : ℝ) (min 1 0) = 0 := by norm_num
  rw [hcl, Real.arccos_zero]
  have h90 : Real.pi / 2 * (180 / Real.pi) = 90 := by
    field_simp
    ring
  rw [h90]

theorem plankBad_alignScore : plankAlignScore plankBadFrame = some 0 := by
  rw [plankAlignScore]
  rw [lmk_plankBad (by norm_num : (11:ℕ) < 29), lmk_plankBad (by norm_num : (12:ℕ) < 29),
      lmk_plankBad (by norm_num : (23:ℕ) < 29), lmk_plankBad (by norm_num : (24:ℕ) < 29),
      lmk_plankBad (by norm_num : (27:ℕ) < 29), lmk_plankBad (by norm_num : (28:ℕ) < 29)]
  rw [plankCheckBodyAlignment,
      centerLm_shoulders_bad, centerLm_hips_bad, centerLm_ankles_bad,
      if_neg plankBad_not_aligned, cba_bad]
  norm_num

theorem plankBad_elbowScore : plankElbowScore plankBadFrame = 1 := by
  rw [plankElbowScore]
  rw [lmk_plankBad (by norm_num : (11:ℕ) < 29), lmk_plankBad (by norm_num : (13:ℕ) < 29),
      lmk_plankBad (by norm_num : (15:ℕ) < 29), lmk_plankBad (by norm_num : (12:ℕ) < 29),
      lmk_plankBad (by norm_num : (14:ℕ) < 29), lmk_plankBad (by norm_num : (16:ℕ) < 29)]
  norm_num [plankCheckElbowPosition, plankBadLm, mkLm]

theorem plankBad_hipScore : plankHipScore plankBadFrame = some 0 := by
  rw [plankHipScore]
  rw [lmk_plankBad (by norm_num : (11:ℕ) < 29), lmk_plankBad (by norm_num : (12:ℕ) < 29),
      lmk_plankBad (by norm_num : (23:ℕ) < 29), lmk_plankBad (by norm_num : (24:ℕ) < 29),
      lmk_plankBad (by norm_num : (27:ℕ) < 29), lmk_plankBad (by norm_num : (28:ℕ) < 29)]
  rw [plankCheckHipPosition,
      centerLm_shoulders_bad, centerLm_hips_bad, centerLm_ankles_bad]
  dsimp only
  have hsm : Real.sqrt (((0.1:ℝ) - 0.5) ^ 2 + ((0.5:ℝ) - 0.9) ^ 2) =
      Real.sqrt 0.32 := by norm_num
  have ham : Real.sqrt (((0.9:ℝ) - 0.5) ^ 2 + ((0.5:ℝ) - 0.9) ^ 2) =
      Real.sqrt 0.32 := by norm_num
  rw [hsm, ham, Real.mul_self_sqrt (by norm_num : (0:ℝ) ≤ 0.32)]
  rw [if_neg (by norm_num)]
  have hq : (((0.1:ℝ) - 0.5) * ((0.9:ℝ) - 0.5) + ((0.5:ℝ) - 0.9) * ((0.5:ℝ) - 0.9)) /
      (0.32 : ℝ) = 0 := by norm_num
  rw [hq]
  have hcl : max (-1 : ℝ) (min 1 0) = 0 := by norm_num
  rw [hcl, Real.arccos_zero]
  have h90 : Real.pi / 2 * (180 / Real.pi) = 90 := by
    field_simp
    ring
  rw [h90]
  norm_num

/-! ## Plank criteria and frame validity at the concrete frames -/

theorem plankGood_criteria_one :
    plankFormCriteria [plankGoodFrame] plankGoodFrame = [true, true, true, false] := by
  have h1 : oGT (plankAlignScore plankGoodFrame) 0.7 := by
    rw [plankGood_alignScore]; norm_num
  have h2 : (0.7 : ℝ) < plankElbowScore plankGoodFrame := by
    rw [plankGood_elbowScore]; norm_num
  have h3 : oGT (plankHipScore plankGoodFrame) 0.7 := by
    rw [plankGood_hipScore]; norm_num
  have h4 : ¬ (0.7 : ℝ) < calculatePoseStability [plankGoodFrame] := by
    rw [stability_single]; norm_num
  simp [plankFormCriteria, h1, h2, h3, h4]

theorem plankGood_criteria_two :
    plankFormCriteria [plankGoodFrame, plankGoodFrame] plankGoodFrame =
      [true, true, true, true] := by
  have h1 : oGT (plankAlignScore plankGoodFrame) 0.7 := by
    rw [plankGood_alignScore]; norm_num
  have h2 : (0.7 : ℝ) < plankElbowScore plankGoodFrame := by
    rw [plankGood_elbowScore]; norm_num
  have h3 : oGT (plankHipScore plankGoodFrame) 0.7 := by
    rw [plankGood_hipScore]; norm_num
  have h4 : (0.7 : ℝ) < calculatePoseStability [plankGoodFrame, plankGoodFrame] := by
    rw [stability_two_self plankGoodFrame plankGood_keyLandmarks]; norm_num
  simp [plankFormCriteria, h1, h2, h3, h4]

theorem plankGood_criteria_three :
    plankFormCriteria [plankGoodFrame, plankGoodFrame, plankGoodFrame] plankGoodFrame =
      [true, true, true, true] := by
  have h1 : oGT (plankAlignScore plankGoodFrame) 0.7 := by
    rw [plankGood_alignScore]; norm_num
  have h2 : (0.7 : ℝ) < plankElbowScore plankGoodFrame := by
    rw [plankGood_elbowScore]; norm_num
  have h3 : oGT (plankHipScore plankGoodFrame) 0.7 := by
    rw [plankGood_hipScore]; norm_num
  have h4 : (0.7 : ℝ) <
      calculatePoseStability [plankGoodFrame, plankGoodFrame, plankGoodFrame] := by
    rw [stability_three_self plankGoodFrame plankGood_keyLandmarks]; norm_num
  simp [plankFormCriteria, h1, h2, h3, h4]

theorem plankGood_valid_one : plankFrameValid [plankGoodFrame] plankGoodFrame := by
  rw [plankFrameValid, plankFormScore, plankGood_criteria_one]
  simp [calculateFormScore]
  norm_num

theorem plankGood_valid_two :
    plankFrameValid [plankGoodFrame, plankGoodFrame] plankGoodFrame := by
  rw [plankFrameValid, plankFormScore, plankGood_criteria_two]
  simp [calculateFormScore]
  norm_num

theorem plankGood_valid_three :
    plankFrameValid [plankGoodFrame, plankGoodFrame, plankGoodFrame] plankGoodFrame := by
  rw [plankFrameValid, plankFormScore, plankGood_criteria_three]
  simp [calculateFormScore]
  norm_num

theorem plankBad_criteria_one :
    plankFormCriteria [plankBadFrame] plankBadFrame = [false, true, false, false] := by
  have h1 : ¬ oGT (plankAlignScore plankBadFrame) 0.7 := by
    rw [plankBad_alignScore]; norm_num
  have h2 : (0.7 : ℝ) < plankElbowScore plankBadFrame := by
    rw [plankBad_elbowScore]; norm_num
  have h3 : ¬ oGT (plankHipScore plankBadFrame) 0.7 := by
    rw [plankBad_hipScore]; norm_num
  have h4 : ¬ (0.7 : ℝ) < calculatePoseStability [plankBadFrame] := by
    rw [stability_single]; norm_num
  simp [plankFormCriteria, h1, h2, h3, h4]

theorem plankBad_invalid_one : ¬ plankFrameValid [plankBadFrame] plankBadFrame := by
  rw [plankFrameValid, plankFormScore, plankBad_criteria_one]
  simp [calculateFormScore]
  norm_num

/-! ## Plank state machine: branch lemmas -/

theorem plankValidate_main {s : PlankState} {p : PoseResult} {now : ℤ}
    (hc : ¬ p.confidence < 0.6) (hr : plankLandmarksReliable p) :
    plankValidate s p now =
      ({ isValid := (addToValidationHistory
            (plankStateStep (plankAfterPose s p) p now).1.validationHistory
            (decide (plankFrameValid (plankAfterPose s p).recentPoses p))).2,
         feedback := plankCriterionFeedback (plankAfterPose s p).recentPoses p ++
                     (plankStateStep (plankAfterPose s p) p now).2.2,
         completedRep := (plankStateStep (plankAfterPose s p) p now).2.1,
         formScore := plankFormScore (plankAfterPose s p).recentPoses p },
       { (plankStateStep (plankAfterPose s p) p now).1 with
          validationHistory := (addToValidationHistory
            (plankStateStep (plankAfterPose s p) p now).1.validationHistory
            (decide (plankFrameValid (plankAfterPose s p).recentPoses p))).1 }) := by
  rw [plankValidate, if_neg hc, if_neg (not_not_intro hr)]

theorem plankStateStep_enter {s0 : PlankState} {p : PoseResult} {now : ℤ}
    (hval : plankFrameValid s0.recentPoses p) (hpos : s0.isInPlankPosition = false) :
    plankStateStep s0 p now =
      ({ s0 with isInPlankPosition := true, plankStartTime := now }, false,
       ["Good plank position! Hold steady..."]) := by
  rw [plankStateStep, if_pos hval, if_pos hpos]

theorem plankStateStep_milestone {s0 : PlankState} {p : PoseResult} {now : ℤ}
    (hval : plankFrameValid s0.recentPoses p) (hpos : s0.isInPlankPosition = true)
    (hidx : s0.nextMilestoneIndex < milestoneDurations.length)
    (hdur : milestoneDurations.getD s0.nextMilestoneIndex 0 ≤ now - s0.plankStartTime) :
    plankStateStep s0 p now =
      ({ s0 with plankDuration := now - s0.plankStartTime, lastStableTime := now,
                 repCount := s0.repCount + 1,
                 nextMilestoneIndex := s0.nextMilestoneIndex + 1 },
       true,
       ["Great form! Duration: " ++ toString ((now - s0.plankStartTime) / 1000) ++ " seconds",
        "Milestone reached: " ++
          toString (milestoneDurations.getD s0.nextMilestoneIndex 0 / 1000) ++ " seconds!"]) := by
  rw [plankStateStep, if_pos hval, if_neg (by simp [hpos]), if_pos ⟨hidx, hdur⟩]

theorem plankStateStep_hold {s0 : PlankState} {p : PoseResult} {now : ℤ}
    (hval : plankFrameValid s0.recentPoses p) (hpos : s0.isInPlankPosition = true)
    (hms : ¬(s0.nextMilestoneIndex < milestoneDurations.length ∧
             milestoneDurations.getD s0.nextMilestoneIndex 0 ≤ now - s0.plankStartTime)) :
    plankStateStep s0 p now =
      ({ s0 with plankDuration := now - s0.plankStartTime, lastStableTime := now },
       false,
       ["Great form! Duration: " ++ toString ((now - s0.plankStartTime) / 1000) ++
        " seconds"]) := by
  rw [plankStateStep, if_pos hval, if_neg (by simp [hpos]), if_neg hms]

theorem plankStateStep_invalidShort {s0 : PlankState} {p : PoseResult} {now : ℤ}
    (hval : ¬ plankFrameValid s0.recentPoses p)
    (hns : ¬(s0.isInPlankPosition = true ∧ 1000 < now - s0.lastStableTime)) :
    plankStateStep s0 p now = (s0, false, []) := by
  rw [plankStateStep, if_neg hval, if_neg hns]

theorem plankStateStep_invalidLong {s0 : PlankState} {p : PoseResult} {now : ℤ}
    (hval : ¬ plankFrameValid s0.recentPoses p)
    (hpos : s0.isInPlankPosition = true) (ht : 1000 < now - s0.lastStableTime) :
    plankStateStep s0 p now =
      ({ s0 with isInPlankPosition := false }, false,
       ["Plank position lost. Reset and try again."]) := by
  rw [plankStateStep, if_neg hval, if_pos ⟨hpos, ht⟩, handleInvalidPose,
      if_pos ⟨hpos, ht⟩]

theorem plankStateStep_history (s0 : PlankState) (p : PoseResult) (now : ℤ) :
    (plankStateStep s0 p now).1.validationHistory = s0.validationHistory := by
  rw [plankStateStep, handleInvalidPose]
  split_ifs <;> rfl

theorem handleInvalidPose_idx (s : PlankState) (now : ℤ) :
    (handleInvalidPose s now).nextMilestoneIndex = s.nextMilestoneIndex := by
  rw [handleInvalidPose]
  split_ifs <;> rfl

theorem plankStateStep_idx_mono (s0 : PlankState) (p : PoseResult) (now : ℤ) :
    s0.nextMilestoneIndex ≤ (plankStateStep s0 p now).1.nextMilestoneIndex := by
  rw [plankStateStep]
  split_ifs <;> simp [handleInvalidPose_idx]

theorem plankValidate_idx_mono (s : PlankState) (p : PoseResult) (now : ℤ) :
    s.nextMilestoneIndex ≤ (plankValidate s p now).2.nextMilestoneIndex := by
  rw [plankValidate]
  split_ifs
  · simp [handleInvalidPose_idx, plankAfterPose]
  · exact plankStateStep_idx_mono (plankAfterPose s p) p now
  · simp [handleInvalidPose_idx, plankAfterPose]

theorem addToRecentPoses_nil (p : PoseResult) : addToRecentPoses [] p = [p] := by
  rw [addToRecentPoses]
  norm_num [maxRecentPoses]

theorem addToRecentPoses_one (q p : PoseResult) :
    addToRecentPoses [q] p = [q, p] := by
  rw [addToRecentPoses]
  norm_num [maxRecentPoses]

theorem addToRecentPoses_two (q r p : PoseResult) :
    addToRecentPoses [q, r] p = [q, r, p] := by
  rw [addToRecentPoses]
  norm_num [maxRecentPoses]

/-! ## The scripted plank hold: enter at 0, milestones at 5000 and 10000 -/

theorem plank_call1 :
    (plankValidate plankInit plankGoodFrame 0).2 =
      { repCount := 0, lastValidationTime := 0, validationHistory := [true],
        plankStartTime := 0, plankDuration := 0, isInPlankPosition := true,
        lastStableTime := 0, recentPoses := [plankGoodFrame], nextMilestoneIndex := 0 } ∧
    (plankValidate plankInit plankGoodFrame 0).1.completedRep = false := by
  have h0 : addToRecentPoses plankInit.recentPoses plankGoodFrame = [plankGoodFrame] :=
    addToRecentPoses_nil _
  have haf : plankAfterPose plankInit plankGoodFrame =
      { plankInit with recentPoses := [plankGoodFrame] } := by
    rw [plankAfterPose, h0]
  rw [plankValidate_main (by norm_num [plankGoodFrame]) plankGoodFrame_reliable, haf]
  have hv1 : plankFrameValid
      ({ plankInit with recentPoses := [plankGoodFrame] } : PlankState).recentPoses
      plankGoodFrame := plankGood_valid_one
  rw [plankStateStep_enter hv1 rfl, decide_eq_true hv1]
  refine ⟨?_, rfl⟩
  simp [addToValidationHistory, historySize, smoothedThreshold, plankInit]

theorem plank_call2 :
    (plankValidate
      { repCount := 0, lastValidationTime := 0, validationHistory := [true],
        plankStartTime := 0, plankDuration := 0, isInPlankPosition := true,
        lastStableTime := 0, recentPoses := [plankGoodFrame], nextMilestoneIndex := 0 }
      plankGoodFrame 5000).2 =
      { repCount := 1, lastValidationTime := 0, validationHistory := [true, true],
        plankStartTime := 0, plankDuration := 5000, isInPlankPosition := true,
        lastStableTime := 5000, recentPoses := [plankGoodFrame, plankGoodFrame],
        nextMilestoneIndex := 1 } ∧
    (plankValidate
      { repCount := 0, lastValidationTime := 0, validationHistory := [true],
        plankStartTime := 0, plankDuration := 0, isInPlankPosition := true,
        lastStableTime := 0, recentPoses := [plankGoodFrame], nextMilestoneIndex := 0 }
      plankGoodFrame 5000).1.completedRep = true := by
  have h0 : addToRecentPoses
      ({ repCount := 0, lastValidationTime := 0, validationHistory := [true],
         plankStartTime := 0, plankDuration := 0, isInPlankPosition := true,
         lastStableTime := 0, recentPoses := [plankGoodFrame],
         nextMilestoneIndex := 0 } : PlankState).recentPoses plankGoodFrame =
      [plankGoodFrame, plankGoodFrame] := addToRecentPoses_one _ _
  have haf : plankAfterPose
      { repCount := 0, lastValidationTime := 0, validationHistory := [true],
        plankStartTime := 0, plankDuration := 0, isInPlankPosition := true,
        lastStableTime := 0, recentPoses := [plankGoodFrame], nextMilestoneIndex := 0 }
      plankGoodFrame =
      { repCount := 0, lastValidationTime := 0, validationHistory := [true],
        plankStartTime := 0, plankDuration := 0, isInPlankPosition := true,
        lastStableTime := 0, recentPoses := [plankGoodFrame, plankGoodFrame],
        nextMilestoneIndex := 0 } := by
    rw [plankAfterPose, h0]
  rw [plankValidate_main (by norm_num [plankGoodFrame]) plankGoodFrame_reliable, haf]
  have hv2 : plankFrameValid
      ({ repCount := 0, lastValidationTime := 0, validationHistory := [true],
         plankStartTime := 0, plankDuration := 0, isInPlankPosition := true,
         lastStableTime := 0, recentPoses := [plankGoodFrame, plankGoodFrame],
         nextMilestoneIndex := 0 } : PlankState).recentPoses plankGoodFrame :=
    plankGood_valid_two
  rw [plankStateStep_milestone hv2 rfl
        (show (0 : ℕ) < milestoneDurations.length by norm_num [milestoneDurations])
        (show milestoneDurations.getD 0 0 ≤ (5000 : ℤ) - 0 by
          norm_num [milestoneDurations, List.getD]),
      decide_eq_true hv2]
  refine ⟨?_, rfl⟩
  simp [addToValidationHistory, historySize, smoothedThreshold]

theorem plank_call3 :
    (plankValidate
      { repCount := 1, lastValidationTime := 0, validationHistory := [true, true],
        plankStartTime := 0, plankDuration := 5000, isInPlankPosition := true,
        lastStableTime := 5000, recentPoses := [plankGoodFrame, plankGoodFrame],
        nextMilestoneIndex := 1 }
      plankGoodFrame 10000).2.repCount = 2 ∧
    (plankValidate
      { repCount := 1, lastValidationTime := 0, validationHistory := [true, true],
        plankStartTime := 0, plankDuration := 5000, isInPlankPosition := true,
        lastStableTime := 5000, recentPoses := [plankGoodFrame, plankGoodFrame],
        nextMilestoneIndex := 1 }
      plankGoodFrame 10000).2.nextMilestoneIndex = 2 ∧
    (plankValidate
      { repCount := 1, lastValidationTime := 0, validationHistory := [true, true],
        plankStartTime := 0, plankDuration := 5000, isInPlankPosition := true,
        lastStableTime := 5000, recentPoses := [plankGoodFrame, plankGoodFrame],
        nextMilestoneIndex := 1 }
      plankGoodFrame 10000).1.completedRep = true := by
  have h0 : addToRecentPoses
      ({ repCount := 1, lastValidationTime := 0, validationHistory := [true, true],
         plankStartTime := 0, plankDuration := 5000, isInPlankPosition := true,
         lastStableTime := 5000, recentPoses := [plankGoodFrame, plankGoodFrame],
         nextMilestoneIndex := 1 } : PlankState).recentPoses plankGoodFrame =
      [plankGoodFrame, plankGoodFrame, plankGoodFrame] := addToRecentPoses_two _ _ _
  have haf : plankAfterPose
      { repCount := 1, lastValidationTime := 0, validationHistory := [true, true],
        plankStartTime := 0, plankDuration := 5000, isInPlankPosition := true,
        lastStableTime := 5000, recentPoses := [plankGoodFrame, plankGoodFrame],
        nextMilestoneIndex := 1 }
      plankGoodFrame =
      { repCount := 1, lastValidationTime := 0, validationHistory := [true, true],
        plankStartTime := 0, plankDuration := 5000, isInPlankPosition := true,
        lastStableTime := 5000,
        recentPoses := [plankGoodFrame, plankGoodFrame, plankGoodFrame],
        nextMilestoneIndex := 1 } := by
    rw [plankAfterPose, h0]
  rw [plankValidate_main (by norm_num [plankGoodFrame]) plankGoodFrame_reliable, haf]
  have hv3 : plankFrameValid
      ({ repCount := 1, lastValidationTime := 0, validationHistory := [true, true],
         plankStartTime := 0, plankDuration := 5000, isInPlankPosition := true,
         lastStableTime := 5000,
         recentPoses := [plankGoodFrame, plankGoodFrame, plankGoodFrame],
         nextMilestoneIndex := 1 } : PlankState).recentPoses plankGoodFrame :=
    plankGood_valid_three
  rw [plankStateStep_milestone hv3 rfl
        (show (1 : ℕ) < milestoneDurations.length by norm_num [milestoneDurations])
        (show milestoneDurations.getD 1 0 ≤ (10000 : ℤ) - 0 by
          norm_num [milestoneDurations, List.getD]),
      decide_eq_true hv3]
  exact ⟨rfl, rfl, rfl⟩


/-! ## Claim C6: plank milestones -/

/-- Claim C6: on each valid in-position frame whose accumulated duration
`now - plankStartTime` reaches `milestones[nextMilestoneIndex]` from the fixed
table {5000,10000,20000,30000,60000} ms, `completedRep` is true, `repCount` is
incremented and `nextMilestoneIndex` advances; `nextMilestoneIndex` never
decreases across a `validate` call and only `reset` returns it to 0; and the
scripted continuous hold (enter at 0, frames at 5000 and 10000 ms) yields
`repCount = 1` then `repCount = 2` with `completedRep` on each milestone
frame, never re-firing the 5000 ms milestone. -/
theorem claim6_plank_milestones :
    (∀ (s0 : PlankState) (p : PoseResult) (now : ℤ),
        plankFrameValid s0.recentPoses p →
        s0.isInPlankPosition = true →
        s0.nextMilestoneIndex < milestoneDurations.length →
        milestoneDurations.getD s0.nextMilestoneIndex 0 ≤ now - s0.plankStartTime →
        (plankStateStep s0 p now).2.1 = true ∧
        (plankStateStep s0 p now).1.repCount = s0.repCount + 1 ∧
        (plankStateStep s0 p now).1.nextMilestoneIndex = s0.nextMilestoneIndex + 1) ∧
    (∀ (s : PlankState) (p : PoseResult) (now : ℤ),
        s.nextMilestoneIndex ≤ (plankValidate s p now).2.nextMilestoneIndex) ∧
    (∀ s : PlankState, (plankReset s).nextMilestoneIndex = 0) ∧
    milestoneDurations = [5000, 10000, 20000, 30000, 60000] ∧
    (plankRun plankInit [(plankGoodFrame, 0), (plankGoodFrame, 5000)]).repCount = 1 ∧
    (plankValidate (plankRun plankInit [(plankGoodFrame, 0)])
      plankGoodFrame 5000).1.completedRep = true ∧
    (plankRun plankInit
      [(plankGoodFrame, 0), (plankGoodFrame, 5000), (plankGoodFrame, 10000)]).repCount = 2 := by
  obtain ⟨h1s, -⟩ := plank_call1
  obtain ⟨h2s, h2c⟩ := plank_call2
  obtain ⟨h3r, -, -⟩ := plank_call3
  refine ⟨?_, plankValidate_idx_mono, fun s => rfl, rfl, ?_, ?_, ?_⟩
  · intro s0 p now hval hpos hidx hdur
    rw [plankStateStep_milestone hval hpos hidx hdur]
    exact ⟨rfl, rfl, rfl⟩
  · show ((plankValidate (plankValidate plankInit plankGoodFrame 0).2
      plankGoodFrame 5000).2).repCount = 1
    rw [h1s, h2s]
  · show (plankValidate (plankValidate plankInit plankGoodFrame 0).2
      plankGoodFrame 5000).1.completedRep = true
    rw [h1s]
    exact h2c
  · show ((plankValidate ((plankValidate (plankValidate plankInit plankGoodFrame 0).2
      plankGoodFrame 5000).2) plankGoodFrame 10000).2).repCount = 2
    rw [h1s, h2s]
    exact h3r

/-- Claim C6, witness: the general milestone step instantiated at a concrete
in-position state holding two good frames, with the 5000 ms milestone due. -/
theorem claim6_plank_milestones_witness :
    (plankStateStep
      { repCount := 0, lastValidationTime := 0, validationHistory := [true],
        plankStartTime := 0, plankDuration := 0, isInPlankPosition := true,
        lastStableTime := 0, recentPoses := [plankGoodFrame, plankGoodFrame],
        nextMilestoneIndex := 0 } plankGoodFrame 5000).2.1 = true ∧
    (plankStateStep
      { repCount := 0, lastValidationTime := 0, validationHistory := [true],
        plankStartTime := 0, plankDuration := 0, isInPlankPosition := true,
        lastStableTime := 0, recentPoses := [plankGoodFrame, plankGoodFrame],
        nextMilestoneIndex := 0 } plankGoodFrame 5000).1.repCount = 0 + 1 ∧
    (plankStateStep
      { repCount := 0, lastValidationTime := 0, validationHistory := [true],
        plankStartTime := 0, plankDuration := 0, isInPlankPosition := true,
        lastStableTime := 0, recentPoses := [plankGoodFrame, plankGoodFrame],
        nextMilestoneIndex := 0 } plankGoodFrame 5000).1.nextMilestoneIndex = 0 + 1 :=
  claim6_plank_milestones.1
    { repCount := 0, lastValidationTime := 0, validationHistory := [true],
      plankStartTime := 0, plankDuration := 0, isInPlankPosition := true,
      lastStableTime := 0, recentPoses := [plankGoodFrame, plankGoodFrame],
      nextMilestoneIndex := 0 } plankGoodFrame 5000
    plankGood_valid_two rfl
    (show (0 : ℕ) < milestoneDurations.length by norm_num [milestoneDurations])
    (show milestoneDurations.getD 0 0 ≤ (5000 : ℤ) - 0 by
      norm_num [milestoneDurations, List.getD])


/-! ## Claim C1: plank validity rule -/

/-- Claim C1, counterexample: the first good frame is judged valid by the
plank validator even though its multi-frame stability score is 0 (a single
frame scores 0, far below 0.7) — so validity is not the AND of five conditions
at 0.7; the criteria list [alignment, elbow, hip, stability] evaluates to
[true, true, true, false] and the frame still passes. -/
theorem claim1_plank_and_counterexample :
    plankFrameValid [plankGoodFrame] plankGoodFrame ∧
    ¬ 0.7 < calculatePoseStability [plankGoodFrame] ∧
    plankFormCriteria [plankGoodFrame] plankGoodFrame = [true, true, true, false] := by
  refine ⟨plankGood_valid_one, ?_, plankGood_criteria_one⟩
  rw [stability_single]
  norm_num

/-- Claim C1, amended: the plank validator uses the same weighted-average rule
as the push-up and chin-up validators — the frame is judged valid iff
`formScore > 0.6`, i.e. iff at least 3 of the 4 criteria (alignment > 0.7,
elbow position > 0.7, hip position > 0.7, multi-frame stability > 0.7) hold;
no logical AND of all criteria is required. -/
theorem claim1_plank_validity_amended (recent : List PoseResult) (p : PoseResult) :
    plankFrameValid recent p ↔
      3 ≤ (List.count true
        [decide (oGT (plankAlignScore p) 0.7),
         decide (0.7 < plankElbowScore p),
         decide (oGT (plankHipScore p) 0.7),
         decide (0.7 < calculatePoseStability recent)]) := by
  rw [plankFrameValid, plankFormScore, plankFormCriteria, calculateFormScore]
  rw [if_neg (by simp)]
  have hlen : (List.length
      [decide (oGT (plankAlignScore p) 0.7),
       decide (0.7 < plankElbowScore p),
       decide (oGT (plankHipScore p) 0.7),
       decide (0.7 < calculatePoseStability recent)]) = 4 := by
    simp
  have hle : (List.count true
      [decide (oGT (plankAlignScore p) 0.7),
       decide (0.7 < plankElbowScore p),
       decide (oGT (plankHipScore p) 0.7),
       decide (0.7 < calculatePoseStability recent)]) ≤ 4 := by
    rw [List.count]
    exact le_trans (List.countP_le_length _) (le_of_eq hlen)
  rw [hlen]
  constructor
  · intro h
    by_contra hc
    push_neg at hc
    have h2 : (List.count true
        [decide (oGT (plankAlignScore p) 0.7),
         decide (0.7 < plankElbowScore p),
         decide (oGT (plankHipScore p) 0.7),
         decide (0.7 < calculatePoseStability recent)]) ≤ 2 := Nat.lt_succ_iff.mp hc
    have h3 : ((List.count true
        [decide (oGT (plankAlignScore p) 0.7),
         decide (0.7 < plankElbowScore p),
         decide (oGT (plankHipScore p) 0.7),
         decide (0.7 < calculatePoseStability recent)] : ℕ) : ℝ) ≤ 2 := by
      exact_mod_cast h2
    rw [lt_div_iff₀ (by norm_num)] at h
    linarith
  · intro h
    have h3 : (3 : ℝ) ≤ ((List.count true
        [decide (oGT (plankAlignScore p) 0.7),
         decide (0.7 < plankElbowScore p),
         decide (oGT (plankHipScore p) 0.7),
         decide (0.7 < calculatePoseStability recent)] : ℕ) : ℝ) := by
      exact_mod_cast h
    rw [lt_div_iff₀ (by norm_num)]
    linarith


/-! ## Claim C2: low-confidence handling -/

/-- Claim C2, counterexample: a confidence-0.5 frame presented to a plank
validator that is in-position with `lastStableTime = 0` at clock reading 2000
clears `isInPlankPosition` — the plank validator pushes the frame into
`recentPoses` and runs `handleInvalidPose` before the early return, so its
state is not left unchanged. -/
theorem claim2_lowconf_counterexample :
    lowConfFrame.confidence < 0.6 ∧
    plankHold.isInPlankPosition = true ∧
    (plankValidate plankHold lowConfFrame 2000).2.isInPlankPosition = false ∧
    (plankValidate plankHold lowConfFrame 2000).2.recentPoses ≠ plankHold.recentPoses := by
  have hc : lowConfFrame.confidence < 0.6 := by norm_num [lowConfFrame]
  have h0 : addToRecentPoses plankHold.recentPoses lowConfFrame = [lowConfFrame] :=
    addToRecentPoses_nil _
  have haf : plankAfterPose plankHold lowConfFrame =
      { plankHold with recentPoses := [lowConfFrame] } := by
    rw [plankAfterPose, h0]
  have hcond : ({ plankHold with recentPoses := [lowConfFrame] } :
        PlankState).isInPlankPosition = true ∧
      1000 < (2000 : ℤ) - ({ plankHold with recentPoses := [lowConfFrame] } :
        PlankState).lastStableTime :=
    ⟨rfl, show (1000 : ℤ) < 2000 - 0 by norm_num⟩
  refine ⟨hc, rfl, ?_, ?_⟩
  · rw [plankValidate, if_pos hc, haf, handleInvalidPose, if_pos hcond]
  · rw [plankValidate, if_pos hc, haf, handleInvalidPose, if_pos hcond]
    intro h
    exact List.cons_ne_nil lowConfFrame [] h

/-- Claim C2, amended: on a frame with confidence < 0.6 every validator
returns isValid = false, completedRep = false, formScore = 0 with the
corrective feedback string; the push-up and chin-up validators leave their
state completely unchanged, but the plank validator appends the frame to
`recentPoses` and runs its invalid-pose debounce, which clears
`isInPlankPosition` when the validator was in-position and more than 1000 ms
have passed since the last stable frame (repCount, validationHistory,
duration and milestone progress are preserved). -/
theorem claim2_lowconf_amended :
    ∀ (p : PoseResult), p.confidence < 0.6 →
      (∀ (s : PushUpState) (now : ℤ), pushUpValidate s p now =
        ({ isValid := false, feedback := [confidenceFeedback],
           completedRep := false, formScore := 0 }, s)) ∧
      (∀ (s : ChinUpState) (now : ℤ), chinUpValidate s p now =
        ({ isValid := false, feedback := [confidenceFeedback],
           completedRep := false, formScore := 0 }, s)) ∧
      (∀ (s : PlankState) (now : ℤ),
        (plankValidate s p now).1 =
          { isValid := false, feedback := [confidenceFeedback],
            completedRep := false, formScore := 0 } ∧
        (plankValidate s p now).2.repCount = s.repCount ∧
        (plankValidate s p now).2.validationHistory = s.validationHistory ∧
        (plankValidate s p now).2.nextMilestoneIndex = s.nextMilestoneIndex ∧
        (plankValidate s p now).2.plankDuration = s.plankDuration ∧
        (plankValidate s p now).2.plankStartTime = s.plankStartTime ∧
        (plankValidate s p now).2.recentPoses = addToRecentPoses s.recentPoses p ∧
        ((plankValidate s p now).2.isInPlankPosition = false ↔
          (s.isInPlankPosition = false ∨ 1000 < now - s.lastStableTime))) := by
  intro p hc
  refine ⟨?_, ?_, ?_⟩
  · intro s now
    rw [pushUpValidate, if_pos hc]
  · intro s now
    rw [chinUpValidate, if_pos hc]
  · intro s now
    rw [plankValidate, if_pos hc, plankAfterPose, handleInvalidPose]
    split_ifs with h
    · obtain ⟨h1, h2⟩ := h
      exact ⟨rfl, rfl, rfl, rfl, rfl, rfl, rfl,
        iff_of_true rfl (Or.inr h2)⟩
    · refine ⟨rfl, rfl, rfl, rfl, rfl, rfl, rfl, ?_⟩
      show s.isInPlankPosition = false ↔ _
      constructor
      · intro hp
        exact Or.inl hp
      · intro hor
        rcases hor with hp | hg
        · exact hp
        · cases hsp : s.isInPlankPosition with
          | false => rfl
          | true => exact absurd ⟨hsp, hg⟩ h

/-- Claim C2, witness: the low-confidence frame at the initial push-up state
returns the sentinel result and the unchanged state. -/
theorem claim2_lowconf_amended_witness :
    lowConfFrame.confidence < 0.6 ∧
    pushUpValidate pushUpInit lowConfFrame 0 =
      ({ isValid := false, feedback := [confidenceFeedback],
         completedRep := false, formScore := 0 }, pushUpInit) := by
  have hc : lowConfFrame.confidence < 0.6 := by norm_num [lowConfFrame]
  exact ⟨hc, (claim2_lowconf_amended lowConfFrame hc).1 pushUpInit 0⟩


/-! ## Claim C5: plank debounce -/

/-- Claim C5, counterexample: an invalid frame arriving exactly 1000 ms after
the last stable frame — an invalid stretch of exactly 1000 ms, which the claim
says clears the position flag — leaves `isInPlankPosition = true`: the code
uses the strict comparison `now - lastStableTime > 1000`. -/
theorem claim5_debounce_counterexample :
    plankHold.isInPlankPosition = true ∧
    (1000 : ℤ) - plankHold.lastStableTime = 1000 ∧
    (plankValidate plankHold plankBadFrame 1000).2.isInPlankPosition = true := by
  have hc : ¬ plankBadFrame.confidence < 0.6 := by norm_num [plankBadFrame]
  have h0 : addToRecentPoses plankHold.recentPoses plankBadFrame = [plankBadFrame] :=
    addToRecentPoses_nil _
  have haf : plankAfterPose plankHold plankBadFrame =
      { plankHold with recentPoses := [plankBadFrame] } := by
    rw [plankAfterPose, h0]
  have hv : ¬ plankFrameValid ({ plankHold with recentPoses := [plankBadFrame] } :
      PlankState).recentPoses plankBadFrame := plankBad_invalid_one
  have hns : ¬(({ plankHold with recentPoses := [plankBadFrame] } :
        PlankState).isInPlankPosition = true ∧
      1000 < (1000 : ℤ) - ({ plankHold with recentPoses := [plankBadFrame] } :
        PlankState).lastStableTime) :=
    fun h => absurd h.2 (show ¬ (1000 : ℤ) < 1000 - 0 by norm_num)
  refine ⟨rfl, rfl, ?_⟩
  rw [plankValidate_main hc plankBadFrame_reliable, haf,
      plankStateStep_invalidShort hv hns]
  rfl

/-- Claim C5, amended: while the plank validator sees invalid frames, a frame
whose clock reading is at most 1000 ms after `lastStableTime` changes nothing
(position flag, duration, milestone index, repCount and start time are all
preserved — so any invalid stretch of up to and including 1000 ms keeps all
credit); once strictly more than 1000 ms have elapsed, `isInPlankPosition`
is cleared but `repCount`, `nextMilestoneIndex` and `plankDuration` are still
preserved (prior milestone credit is retained). -/
theorem claim5_plank_debounce_amended :
    ∀ (s : PlankState) (p : PoseResult) (now : ℤ),
      ¬ p.confidence < 0.6 →
      plankLandmarksReliable p →
      ¬ plankFrameValid (addToRecentPoses s.recentPoses p) p →
      ((now - s.lastStableTime ≤ 1000 →
          (plankValidate s p now).2.isInPlankPosition = s.isInPlankPosition ∧
          (plankValidate s p now).2.plankDuration = s.plankDuration ∧
          (plankValidate s p now).2.nextMilestoneIndex = s.nextMilestoneIndex ∧
          (plankValidate s p now).2.repCount = s.repCount ∧
          (plankValidate s p now).2.plankStartTime = s.plankStartTime) ∧
       (s.isInPlankPosition = true → 1000 < now - s.lastStableTime →
          (plankValidate s p now).2.isInPlankPosition = false ∧
          (plankValidate s p now).2.repCount = s.repCount ∧
          (plankValidate s p now).2.nextMilestoneIndex = s.nextMilestoneIndex ∧
          (plankValidate s p now).2.plankDuration = s.plankDuration)) := by
  intro s p now hc hr hv
  have hv2 : ¬ plankFrameValid (plankAfterPose s p).recentPoses p := hv
  constructor
  · intro hle
    have hns : ¬((plankAfterPose s p).isInPlankPosition = true ∧
        1000 < now - (plankAfterPose s p).lastStableTime) :=
      fun h => absurd h.2 (not_lt.mpr hle)
    rw [plankValidate_main hc hr, plankStateStep_invalidShort hv2 hns]
    exact ⟨rfl, rfl, rfl, rfl, rfl⟩
  · intro hpos hgt
    have hpos2 : (plankAfterPose s p).isInPlankPosition = true := hpos
    have hgt2 : (1000 : ℤ) < now - (plankAfterPose s p).lastStableTime := hgt
    rw [plankValidate_main hc hr, plankStateStep_invalidLong hv2 hpos2 hgt2]
    exact ⟨rfl, rfl, rfl, rfl⟩

/-- Claim C5, witness: at the in-position state, an invalid frame 800 ms
after the last stable frame preserves the position flag, and one 1500 ms
after clears it while preserving repCount. -/
theorem claim5_plank_debounce_amended_witness :
    ¬ plankBadFrame.confidence < 0.6 ∧
    (plankValidate plankHold plankBadFrame 800).2.isInPlankPosition =
      plankHold.isInPlankPosition ∧
    (plankValidate plankHold plankBadFrame 1500).2.isInPlankPosition = false ∧
    (plankValidate plankHold plankBadFrame 1500).2.repCount = plankHold.repCount := by
  have hc : ¬ plankBadFrame.confidence < 0.6 := by norm_num [plankBadFrame]
  have hv : ¬ plankFrameValid (addToRecentPoses plankHold.recentPoses plankBadFrame)
      plankBadFrame := by
    have h0 : addToRecentPoses plankHold.recentPoses plankBadFrame = [plankBadFrame] :=
      addToRecentPoses_nil _
    rw [h0]
    exact plankBad_invalid_one
  refine ⟨hc, ?_, ?_, ?_⟩
  · exact ((claim5_plank_debounce_amended plankHold plankBadFrame 800 hc
      plankBadFrame_reliable hv).1 (show (800 : ℤ) - 0 ≤ 1000 by norm_num)).1
  · exact ((claim5_plank_debounce_amended plankHold plankBadFrame 1500 hc
      plankBadFrame_reliable hv).2 rfl (show (1000 : ℤ) < 1500 - 0 by norm_num)).1
  · exact ((claim5_plank_debounce_amended plankHold plankBadFrame 1500 hc
      plankBadFrame_reliable hv).2 rfl (show (1000 : ℤ) < 1500 - 0 by norm_num)).2.1

end Fitness